import Mathlib

/-!
# Deflect: pixel-buffer descriptor and DesktopStreamer tick loop

A shallow embedding of `deflect/ImageWrapper.cpp` and of the session
bookkeeping and pacing code of `apps/DesktopStreamer/MainWindow.cpp`,
followed by theorems about the embedded code.

Conventions.
* `unsigned int` / `uint32_t` values are natural numbers; every arithmetic
  result of that type is reduced modulo `2 ^ 32`.
* `float` values are rationals. `_regulateFrameRate` carries the pacing arithmetic
  out exactly; `_regulateFrameRate32` rounds the result of every `float` operation
  to IEEE 754 binary32.
* A C++ function that may let an exception escape returns `Except String _`,
  the string being the `what()` of the exception.
* Calls into collaborators whose code is outside the embedded files (the
  `Stream` class, the item model of the list view, the clock) are answered by
  the fields of `Env`.
-/

namespace Deflect

/-! ## deflect/ImageWrapper.cpp -/

/-- The enumeration `PixelFormat`, in the order recorded by the comment in
`ImageWrapper::getBytesPerPixel`. -/
inductive PixelFormat where
  | RGB | RGBA | ARGB | BGR | BGRA | ABGR
  deriving DecidableEq, Repr

/-- The integral value of a `PixelFormat` enumerator. -/
def PixelFormat.toNat : PixelFormat → Nat
  | .RGB => 0
  | .RGBA => 1
  | .ARGB => 2
  | .BGR => 3
  | .BGRA => 4
  | .ABGR => 5

/-- The enumeration `ChromaSubsampling`. -/
inductive ChromaSubsampling where
  | YUV444 | YUV422 | YUV420
  deriving DecidableEq, Repr

/-- The enumeration `CompressionPolicy`. -/
inductive CompressionPolicy where
  | COMPRESSION_AUTO | COMPRESSION_ON | COMPRESSION_OFF
  deriving DecidableEq, Repr

/-- The modulus of `unsigned int` and `uint32_t` arithmetic. -/
def UINT_MOD : Nat := 2 ^ 32

/-- The macro `DEFAULT_COMPRESSION_QUALITY`. -/
def DEFAULT_COMPRESSION_QUALITY : Nat := 75

/-- The class `ImageWrapper`; `data` is the address held by the pointer. -/
structure ImageWrapper where
  data : Nat
  width : Nat
  height : Nat
  pixelFormat : PixelFormat
  x : Nat
  y : Nat
  compressionPolicy : CompressionPolicy
  compressionQuality : Nat
  subsampling : ChromaSubsampling
  deriving DecidableEq, Repr

/-- The constructor `ImageWrapper::ImageWrapper`; an argument of type
`unsigned int` is stored as its value modulo `2 ^ 32`. -/
def ImageWrapper.new (data_ width_ height_ : Nat) (format_ : PixelFormat)
    (x_ y_ : Nat) : ImageWrapper :=
  { data := data_
    width := width_ % UINT_MOD
    height := height_ % UINT_MOD
    pixelFormat := format_
    x := x_ % UINT_MOD
    y := y_ % UINT_MOD
    compressionPolicy := CompressionPolicy.COMPRESSION_AUTO
    compressionQuality := DEFAULT_COMPRESSION_QUALITY
    subsampling := ChromaSubsampling.YUV444 }

/-- The static table `bytesPerPixel` of `ImageWrapper::getBytesPerPixel`. -/
def bytesPerPixel : List Nat := [3, 4, 4, 3, 4, 4]

/-- `ImageWrapper::getBytesPerPixel`: the table entry at the enumerator's
value; `none` stands for a read outside the table. -/
def ImageWrapper.getBytesPerPixel (img : ImageWrapper) : Option Nat :=
  bytesPerPixel.get? img.pixelFormat.toNat

/-- `ImageWrapper::getBufferSize`: the product is formed in `unsigned int`
and only then converted to `size_t`. -/
def ImageWrapper.getBufferSize (img : ImageWrapper) : Option Nat :=
  (img.getBytesPerPixel).map fun bpp =>
    ((img.width * img.height) % UINT_MOD * bpp) % UINT_MOD

/-- The byte count named by the specification for each format. -/
def specBytesPerPixel : PixelFormat → Nat
  | .RGB => 3
  | .RGBA => 4
  | .ARGB => 4
  | .BGR => 3
  | .BGRA => 4
  | .ABGR => 4

/-! ## apps/DesktopStreamer/MainWindow.cpp: data -/

/-- The constant `SHARE_DESKTOP_UPDATE_DELAY`. -/
def SHARE_DESKTOP_UPDATE_DELAY : Int := 0

/-- The constant `FAILURE_UPDATE_DELAY`. -/
def FAILURE_UPDATE_DELAY : Int := 100

/-- The constant `FRAME_RATE_DAMPING` (`0.1f`), as an exact rational. -/
def FRAME_RATE_DAMPING : ℚ := 1 / 10

/-- A `QPersistentModelIndex`: `row = none` is the default-constructed, invalid
index (the whole desktop), `row = some r` is row `r` of the list view. -/
structure QPersistentModelIndex where
  row : Option Nat
  deriving DecidableEq, Repr

/-- `QPersistentModelIndex::isValid`. -/
def QPersistentModelIndex.isValid (i : QPersistentModelIndex) : Bool :=
  i.row.isSome

/-- The ordering `operator<` of indices used by the map: the invalid index
comes first, valid ones follow by row. -/
def QPersistentModelIndex.less (a b : QPersistentModelIndex) : Bool :=
  match a.row, b.row with
  | none, none => false
  | none, some _ => true
  | some _, none => false
  | some x, some y => decide (x < y)

/-- An object of class `Stream` (its code is outside the embedded files):
`object` is the identity of the object, the number of `Stream` allocations that
preceded its own; the other fields are the constructor arguments and the
events-registered flag. A `StreamPtr` is represented by the object it points
to, so two pointers are the same pointer exactly when the records are equal. -/
structure Stream where
  object : Nat
  index : QPersistentModelIndex
  id : String
  host : String
  pid : Int
  registeredForEvents : Bool
  deriving DecidableEq, Repr

/-- The type `StreamMap`, a `std::map` from index to `StreamPtr`, as the list of
its entries in iteration order. -/
abbrev StreamMap := List (QPersistentModelIndex × Stream)

/-- Lookup of a key: `count(index) != 0` exactly when the result is `some`, and
then the result is the mapped pointer `_streams[index]`. -/
def StreamMap.find? : StreamMap → QPersistentModelIndex → Option Stream
  | [], _ => none
  | (k, s) :: rest, index => if k = index then some s else StreamMap.find? rest index

/-- `std::map::count`. -/
def StreamMap.count (m : StreamMap) (index : QPersistentModelIndex) : Nat :=
  if (StreamMap.find? m index).isSome then 1 else 0

/-- The assignment `streams[index] = s`: the entry of `index` is overwritten, or
inserted at its place in key order. -/
def StreamMap.assign : StreamMap → QPersistentModelIndex → Stream → StreamMap
  | [], index, s => [(index, s)]
  | (k, v) :: rest, index, s =>
    if index.less k then (index, s) :: (k, v) :: rest
    else if k = index then (index, s) :: rest
    else (k, v) :: StreamMap.assign rest index s

/-- `std::map::emplace`: nothing happens when the key is present, otherwise the
entry is inserted at its place in key order. -/
def StreamMap.emplace (m : StreamMap) (index : QPersistentModelIndex) (s : Stream) :
    StreamMap :=
  if StreamMap.count m index ≠ 0 then m else StreamMap.assign m index s

/-- The keys of a map, in iteration order. -/
def StreamMap.keys (m : StreamMap) : List QPersistentModelIndex :=
  m.map Prod.fst

/-- A call made on a collaborator, as recorded in `MainWindow.calls`. -/
inductive Call where
  /-- The expression `std::make_shared<Stream>(...)` for `index`; `created` is the new object,
  or `none` when the constructor threw. -/
  | makeStream (index : QPersistentModelIndex) (created : Option Stream)
  /-- The call `Stream::processEvents` on the given session. -/
  | processEvents (s : Stream)
  /-- The call `Stream::update` on the given session. -/
  | update (s : Stream)
  /-- The call `select(index, Deselect)` on the selection model. -/
  | deselect (index : QPersistentModelIndex)
  /-- The call `setChecked` on the stream button. -/
  | setChecked (b : Bool)
  deriving DecidableEq, Repr

/-- What the code reads from its surroundings during one call: the build flag,
the widgets it never writes, the item model, the `Stream` class and the clock. -/
structure Env where
  /-- Whether `DEFLECT_USE_QT5MACEXTRAS` is defined. -/
  DEFLECT_USE_QT5MACEXTRAS : Bool
  /-- `_actionMultiWindowMode->isChecked()`. -/
  multiWindowMode : Bool
  /-- `_remoteControlCheckBox->isChecked()`. -/
  remoteControl : Bool
  /-- `_compressionCheckBox->isChecked()`. -/
  compression : Bool
  /-- `_qualitySlider->value()`. -/
  quality : Int
  /-- `_subsamplingComboBox->currentIndex()`. -/
  subsamplingIndex : Int
  /-- `_maxFrameRateSpinBox->value()`. -/
  maxFrameRate : Int
  /-- `_streamIdLineEdit->text()`. -/
  streamIdText : String
  /-- `_hostComboBox->currentText()`. -/
  hostText : String
  /-- Whether `_hostComboBox->findText(currentText())` is not `-1`. -/
  hostFound : Bool
  /-- `_hostComboBox->currentData()`, `none` when the variant is invalid. -/
  hostData : Option String
  /-- The display-role data of a row of the list view's model. -/
  displayName : Nat → String
  /-- The pid-role data of a row of the list view's model. -/
  processId : Nat → Int
  /-- The constructor of `Stream` on `(index, id, host, pid)`: `some msg` when it
  throws `std::runtime_error(msg)`. -/
  streamCtor : QPersistentModelIndex → String → String → Int → Option String
  /-- The call `Stream::processEvents(interact)`: `false` when the remote side closed. -/
  streamProcessEvents : Stream → Bool → Bool
  /-- The call `Stream::update(compress, quality, subsampling)`: `some msg` when it throws
  `stream_failure(msg)`. -/
  streamUpdate : Stream → Bool → Int → ChromaSubsampling → Option String
  /-- `_frameTime.elapsed()` at the end of the tick, in milliseconds. -/
  elapsed : Int

/-- The state of a `MainWindow` that the embedded functions read and write. -/
structure MainWindow where
  _streams : StreamMap
  /-- The `uint32_t` identity counter. -/
  _streamID : Nat
  /-- The `float` smoothed frame cost. -/
  _averageUpdate : ℚ
  /-- `_streamButton->isChecked()`. -/
  streamButtonChecked : Bool
  /-- `_listView->selectionModel()->selectedIndexes()`. -/
  selectedIndexes : List QPersistentModelIndex
  /-- `_updateTimer`: `none` when stopped, `some d` when started with interval `d`. -/
  updateTimer : Option Int
  /-- The message shown by `_statusbar`, empty when cleared. -/
  statusMessage : String
  /-- The number of `Stream` objects allocated so far. -/
  allocated : Nat
  /-- The calls made on collaborators so far, oldest first. -/
  calls : List Call
  deriving DecidableEq, Repr

/-- The state built by the member initialisers of `MainWindow::MainWindow`:
`_streamID(0)`, `_averageUpdate(0)`, no session, timer not started. -/
def MainWindow.initial (selection : List QPersistentModelIndex) : MainWindow :=
  { _streams := []
    _streamID := 0
    _averageUpdate := 0
    streamButtonChecked := false
    selectedIndexes := selection
    updateTimer := none
    statusMessage := ""
    allocated := 0
    calls := [] }

/-- Conversion of a `float` to `int`: the fraction is discarded, rounding toward zero. -/
def floatToInt (q : ℚ) : Int :=
  if 0 ≤ q then ⌊q⌋ else ⌈q⌉

/-! ## Single-precision arithmetic -/

/-- `MainWindow::_startStreaming` (the nap suspender is not part of the state). -/
def MainWindow._startStreaming (w : MainWindow) : MainWindow :=
  { w with updateTimer := some SHARE_DESKTOP_UPDATE_DELAY }

/-- `MainWindow::_stopStreaming`. -/
def MainWindow._stopStreaming (w : MainWindow) : MainWindow :=
  if w.streamButtonChecked then
    { w with updateTimer := some FAILURE_UPDATE_DELAY }
  else
    { w with
      updateTimer := none
      statusMessage := ""
      _streams := []
      _streamID := 0 }

/-- `MainWindow::closeEvent`. -/
def MainWindow.closeEvent (w : MainWindow) : MainWindow :=
  MainWindow._stopStreaming
    { w with streamButtonChecked := false, calls := w.calls ++ [Call.setChecked false] }

/-- `MainWindow::_showConnectionErrorStatus`. -/
def MainWindow._showConnectionErrorStatus (w : MainWindow) (message : String) : MainWindow :=
  { w with statusMessage := message }

/-- `MainWindow::_getAppName`. -/
def MainWindow._getAppName (env : Env) (appIndex : QPersistentModelIndex) : String :=
  match appIndex.row with
  | none => ""
  | some r => env.displayName r

/-- `MainWindow::_getAppPid`. -/
def MainWindow._getAppPid (env : Env) (appIndex : QPersistentModelIndex) : Int :=
  match appIndex.row with
  | none => 0
  | some r => if env.DEFLECT_USE_QT5MACEXTRAS then env.processId r else 0

/-- `MainWindow::_getStreamId`. -/
def MainWindow._getStreamId (env : Env) : String :=
  env.streamIdText

/-- `MainWindow::_getFormattedStreamId`. -/
def MainWindow._getFormattedStreamId (env : Env) (id : Nat) (appName : String) : String :=
  toString id ++ " " ++ appName ++ " - " ++ MainWindow._getStreamId env

/-- `MainWindow::_getStreamHost`. -/
def MainWindow._getStreamHost (env : Env) : String :=
  match env.hostFound, env.hostData with
  | true, some preset => preset
  | _, _ => env.hostText

/-- `MainWindow::_getSubsampling`; the error is the `std::runtime_error` of the
default case. -/
def MainWindow._getSubsampling (env : Env) : Except String ChromaSubsampling :=
  if env.subsamplingIndex = 0 then Except.ok ChromaSubsampling.YUV444
  else if env.subsamplingIndex = 1 then Except.ok ChromaSubsampling.YUV422
  else if env.subsamplingIndex = 2 then Except.ok ChromaSubsampling.YUV420
  else Except.error "unsupported subsampling mode"

/-- `MainWindow::_makeStream`: the allocation of `std::make_shared` takes place
whether or not the constructor then throws; `Except.error` carries the
`std::runtime_error` that leaves the function. -/
def MainWindow._makeStream (env : Env) (w : MainWindow) (index : QPersistentModelIndex)
    (id host : String) (pid : Int) : Except String Stream × MainWindow :=
  match env.streamCtor index id host pid with
  | some msg =>
    (Except.error msg,
      { w with
        allocated := w.allocated + 1
        calls := w.calls ++ [Call.makeStream index none] })
  | none =>
    let stream : Stream :=
      { object := w.allocated
        index := index
        id := id
        host := host
        pid := pid
        registeredForEvents := env.remoteControl }
    (Except.ok stream,
      { w with
        allocated := w.allocated + 1
        calls := w.calls ++ [Call.makeStream index (some stream)] })

/-- The loop of `MainWindow::_updateMultipleStreams` over the remaining window
indices: `w` holds the members (with `_streams` still the old map), `streams`
is the local map being filled. -/
def MainWindow.updateMultipleLoop (env : Env) :
    List QPersistentModelIndex → MainWindow → StreamMap → MainWindow × StreamMap
  | [], w, streams => (w, streams)
  | index :: rest, w, streams =>
    match StreamMap.find? w._streams index with
    | some s => MainWindow.updateMultipleLoop env rest w (StreamMap.assign streams index s)
    | none =>
      let appName := MainWindow._getAppName env index
      let w1 := { w with _streamID := (w._streamID + 1) % UINT_MOD }
      let streamId := MainWindow._getFormattedStreamId env w1._streamID appName
      let host := MainWindow._getStreamHost env
      let pid := MainWindow._getAppPid env index
      match MainWindow._makeStream env w1 index streamId host pid with
      | (Except.ok s, w2) =>
        MainWindow.updateMultipleLoop env rest w2 (StreamMap.emplace streams index s)
      | (Except.error e, w2) =>
        MainWindow.updateMultipleLoop env rest
          (MainWindow._showConnectionErrorStatus w2 e) streams

/-- `MainWindow::_updateMultipleStreams`; the body is empty unless
`DEFLECT_USE_QT5MACEXTRAS` is defined. -/
def MainWindow._updateMultipleStreams (env : Env) (w : MainWindow) : MainWindow :=
  if env.DEFLECT_USE_QT5MACEXTRAS then
    let windowIndices := w.selectedIndexes
    let r := MainWindow.updateMultipleLoop env windowIndices w []
    let w1 := { r.1 with _streams := r.2 }
    if !w1._streams.isEmpty && !w1.streamButtonChecked then
      MainWindow._startStreaming
        { w1 with streamButtonChecked := true, calls := w1.calls ++ [Call.setChecked true] }
    else w1
  else w

/-- `MainWindow::_updateSingleStream`. -/
def MainWindow._updateSingleStream (env : Env) (w : MainWindow) : MainWindow :=
  if !w.streamButtonChecked then MainWindow._stopStreaming w
  else if !w._streams.isEmpty then w
  else
    let index : QPersistentModelIndex := { row := none }
    let streamId := MainWindow._getStreamId env
    let host := MainWindow._getStreamHost env
    let pid : Int := 0
    match MainWindow._makeStream env w index streamId host pid with
    | (Except.ok s, w1) =>
      MainWindow._startStreaming { w1 with _streams := StreamMap.emplace w1._streams index s }
    | (Except.error e, w1) => MainWindow._showConnectionErrorStatus w1 e

/-- `MainWindow::_updateStreams`. -/
def MainWindow._updateStreams (env : Env) (w : MainWindow) : MainWindow :=
  if env.multiWindowMode then MainWindow._updateMultipleStreams env w
  else MainWindow._updateSingleStream env w

/-- `MainWindow::_deselect`. -/
def MainWindow._deselect (env : Env) (w : MainWindow) (stream : Stream) : MainWindow :=
  if env.multiWindowMode then
    let index := stream.index
    if index.isValid then
      { w with
        selectedIndexes := w.selectedIndexes.filter fun i => decide (i ≠ index)
        calls := w.calls ++ [Call.deselect index] }
    else w
  else
    { w with streamButtonChecked := false, calls := w.calls ++ [Call.setChecked false] }

/-- The first loop of `MainWindow::_processStreamEvents` from the iterator's
position onward: the entries that stay, the closed streams and the calls made,
each in visiting order. -/
def MainWindow.processEventsLoop (env : Env) (interact : Bool) :
    StreamMap → StreamMap × List Stream × List Call
  | [] => ([], [], [])
  | (k, s) :: rest =>
    let r := MainWindow.processEventsLoop env interact rest
    if env.streamProcessEvents s interact then
      ((k, s) :: r.1, r.2.1, Call.processEvents s :: r.2.2)
    else
      (r.1, s :: r.2.1, Call.processEvents s :: r.2.2)

/-- `MainWindow::_processStreamEvents`. -/
def MainWindow._processStreamEvents (env : Env) (w : MainWindow) : MainWindow :=
  let interact := env.remoteControl
  let r := MainWindow.processEventsLoop env interact w._streams
  let closedStreams := r.2.1
  let w1 := { w with _streams := r.1, calls := w.calls ++ r.2.2 }
  closedStreams.foldl (MainWindow._deselect env) w1

/-- The loop of `MainWindow::_shareDesktopUpdate` from the iterator's position
onward: `w` holds the members without the map, the result pairs the entries
that stay with the members afterwards. An error is the exception of
`_getSubsampling`, which the handler for `stream_failure` does not catch. -/
def MainWindow.shareDesktopLoop (env : Env) :
    StreamMap → MainWindow → Except String (StreamMap × MainWindow)
  | [], w => Except.ok ([], w)
  | (k, s) :: rest, w =>
    match MainWindow._getSubsampling env with
    | Except.error e => Except.error e
    | Except.ok subsampling =>
      let w1 := { w with calls := w.calls ++ [Call.update s] }
      match env.streamUpdate s env.compression env.quality subsampling with
      | none =>
        match MainWindow.shareDesktopLoop env rest w1 with
        | Except.error e => Except.error e
        | Except.ok r => Except.ok ((k, s) :: r.1, r.2)
      | some msg =>
        MainWindow.shareDesktopLoop env rest { w1 with statusMessage := msg }

/-- `MainWindow::_shareDesktopUpdate`. -/
def MainWindow._shareDesktopUpdate (env : Env) (w : MainWindow) : Except String MainWindow :=
  match MainWindow.shareDesktopLoop env w._streams w with
  | Except.error e => Except.error e
  | Except.ok r => Except.ok { r.2 with _streams := r.1 }

/-- `MainWindow::_regulateFrameRate`. A division by zero yields `0` here; in the
source it yields an infinity whose conversion to `int` is undefined. -/
def MainWindow._regulateFrameRate (env : Env) (w : MainWindow) : MainWindow :=
  let elapsed : Int := env.elapsed
  let averageUpdate : ℚ :=
    FRAME_RATE_DAMPING * (elapsed : ℚ) + (1 - FRAME_RATE_DAMPING) * w._averageUpdate
  let desiredFrameTime : Int := floatToInt (1 / 2 + 1000 / (env.maxFrameRate : ℚ))
  let sleepTime : Int :=
    max (desiredFrameTime - floatToInt averageUpdate) SHARE_DESKTOP_UPDATE_DELAY
  let w1 := { w with _averageUpdate := averageUpdate, updateTimer := some sleepTime }
  if !w1._streams.isEmpty then
    let fps : Int := floatToInt (1 / 2 + 1000 / (averageUpdate + (sleepTime : ℚ)))
    let message : String :=
      toString w1._streams.length ++
        (if w1._streams.length = 1 then " stream to " else " streams to ") ++
        MainWindow._getStreamHost env ++ " @ " ++ toString fps ++ " fps"
    { w1 with statusMessage := message }
  else w1

/-- `MainWindow::_update`, one tick. -/
def MainWindow._update (env : Env) (w : MainWindow) : Except String MainWindow :=
  if w.streamButtonChecked then
    let w1 := MainWindow._updateStreams env w
    let w2 := MainWindow._processStreamEvents env w1
    match MainWindow._shareDesktopUpdate env w2 with
    | Except.error e => Except.error e
    | Except.ok w3 => Except.ok (MainWindow._regulateFrameRate env w3)
  else Except.ok (MainWindow._stopStreaming w)

/-! ## Auxiliary definitions used by the statements -/

/-- The members after `n` further runs of `_regulateFrameRate`, each of them
measuring the same elapsed time under the same settings. -/
def MainWindow.regulateTicks (env : Env) (w : MainWindow) (n : Nat) : MainWindow :=
  (MainWindow._regulateFrameRate env)^[n] w

/-- The session that the loop of `_updateMultipleStreams` builds for `index`
when it finds the members as in `w` and the constructor does not throw. -/
def MainWindow.attemptStream (env : Env) (w : MainWindow) (index : QPersistentModelIndex) :
    Stream :=
  { object := w.allocated
    index := index
    id := MainWindow._getFormattedStreamId env ((w._streamID + 1) % UINT_MOD)
      (MainWindow._getAppName env index)
    host := MainWindow._getStreamHost env
    pid := MainWindow._getAppPid env index
    registeredForEvents := env.remoteControl }

/-- The outcome of the constructor call that the loop of `_updateMultipleStreams`
makes for `index` when it finds the members as in `w`. -/
def MainWindow.attemptOutcome (env : Env) (w : MainWindow) (index : QPersistentModelIndex) :
    Option String :=
  env.streamCtor index (MainWindow.attemptStream env w index).id
    (MainWindow.attemptStream env w index).host (MainWindow.attemptStream env w index).pid

/-- A sample environment: multi-window build and mode, 30 frames per second at
most, 33 ms measured per tick, no failing collaborator. -/
def exampleEnv : Env :=
  { DEFLECT_USE_QT5MACEXTRAS := true
    multiWindowMode := true
    remoteControl := false
    compression := true
    quality := 75
    subsamplingIndex := 0
    maxFrameRate := 30
    streamIdText := "desk"
    hostText := "wall"
    hostFound := false
    hostData := none
    displayName := fun _ => "app"
    processId := fun r => (r : Int)
    streamCtor := fun _ _ _ _ => none
    streamProcessEvents := fun _ _ => true
    streamUpdate := fun _ _ _ _ => none
    elapsed := 33 }

/-- The sample environment in single-window mode, with a host that refuses every
connection and a tick that takes no measurable time. -/
def singleFailEnv : Env :=
  { exampleEnv with
    multiWindowMode := false
    streamCtor := fun _ _ _ _ => some "connection refused"
    elapsed := 0 }

/-- A freshly constructed window whose stream button has been pressed. -/
def startedWindow (selection : List QPersistentModelIndex) : MainWindow :=
  { MainWindow.initial selection with streamButtonChecked := true }

/-- The first row of the list view. -/
def windowA : QPersistentModelIndex := { row := some 0 }

/-- The second row of the list view. -/
def windowB : QPersistentModelIndex := { row := some 1 }

/-- The third row of the list view. -/
def windowC : QPersistentModelIndex := { row := some 2 }

/-- A session object for `index` with the given identity and counter value. -/
def sampleStream (object : Nat) (index : QPersistentModelIndex) (id : String) : Stream :=
  { object := object, index := index, id := id, host := "wall", pid := 0,
    registeredForEvents := false }

/-- A window that streams `windowA` and `windowB` and whose stream button has
just been released. -/
def twoSessionWindow : MainWindow :=
  { _streams := [(windowA, sampleStream 0 windowA "1 app - desk"),
      (windowB, sampleStream 1 windowB "2 app - desk")]
    _streamID := 2
    _averageUpdate := 33
    streamButtonChecked := false
    selectedIndexes := [windowA, windowB]
    updateTimer := some 0
    statusMessage := "2 streams to wall @ 30 fps"
    allocated := 2
    calls := [] }

/-- The fourth row of the list view. -/
def windowD : QPersistentModelIndex := { row := some 3 }

/-- A pressed window that streams `windowA`, `windowB` and `windowC` while the
selection has dropped `windowB` and gained `windowD`. -/
def threeSessionWindow : MainWindow :=
  { _streams := [(windowA, sampleStream 0 windowA "1 app - desk"),
      (windowB, sampleStream 1 windowB "2 app - desk"),
      (windowC, sampleStream 2 windowC "3 app - desk")]
    _streamID := 3
    _averageUpdate := 33
    streamButtonChecked := true
    selectedIndexes := [windowA, windowC, windowD]
    updateTimer := some 0
    statusMessage := "3 streams to wall @ 30 fps"
    allocated := 3
    calls := [] }

/-- The environment `env` with a `Stream` constructor that never throws. -/
def Env.neverFailing (env : Env) : Env :=
  { env with streamCtor := fun _ _ _ _ => none }

/-- The sample environment with a host that refuses the session of `windowB`. -/
def refuseBEnv : Env :=
  { exampleEnv with
    streamCtor := fun i _ _ _ => if i = windowB then some "connection refused" else none }

/-- The sample environment with a host that refuses every session. -/
def refuseAllEnv : Env :=
  { exampleEnv with streamCtor := fun _ _ _ _ => some "connection refused" }

/-- The sample environment with the subsampling combo box at index 3. -/
def badSubsamplingEnv : Env :=
  { exampleEnv with subsamplingIndex := 3 }

/-- The sample environment with a session of `windowB` whose update fails. -/
def failBUpdateEnv : Env :=
  { exampleEnv with
    streamUpdate := fun s _ _ _ =>
      if s.index = windowB then some "connection closed" else none }

/-- The sessions of the map whose `processEvents` reports the remote side
closed, in iteration order. -/
def MainWindow.closedStreams (env : Env) (w : MainWindow) : List Stream :=
  (w._streams.filter fun e => !env.streamProcessEvents e.2 env.remoteControl).map Prod.snd

/-- Whether a recorded call is a construction attempt `std::make_shared<Stream>(...)`. -/
def Call.isAttempt : Call → Bool
  | Call.makeStream _ _ => true
  | _ => false

/-- Whether a recorded call is a construction that returned a new session. -/
def Call.isCreation : Call → Bool
  | Call.makeStream _ (some _) => true
  | _ => false

/-- A pressed window with `windowA` selected, no session, and the identity
counter at its largest value. -/
def lastIdWindow : MainWindow :=
  { startedWindow [windowA] with _streamID := 4294967295 }

/-- The sample environment with a session of `windowB` whose remote side has
closed. -/
def closeBEnv : Env :=
  { exampleEnv with streamProcessEvents := fun s _ => decide (s.index ≠ windowB) }

/-- A pressed window that streams `windowA`, `windowB` and `windowC`, all three
selected. -/
def selectedThreeWindow : MainWindow :=
  { threeSessionWindow with selectedIndexes := [windowA, windowB, windowC] }

/-- C8: `getBytesPerPixel` reads inside the six-entry table for every
`PixelFormat` and returns 3, 4, 4, 3, 4, 4 for RGB, RGBA, ARGB, BGR, BGRA, ABGR. -/
theorem getBytesPerPixel_table (img : ImageWrapper) :
    img.pixelFormat.toNat < bytesPerPixel.length ∧
      img.getBytesPerPixel = some (specBytesPerPixel img.pixelFormat) ∧
      [PixelFormat.RGB, PixelFormat.RGBA, PixelFormat.ARGB, PixelFormat.BGR, PixelFormat.BGRA,
        PixelFormat.ABGR].map specBytesPerPixel = [3, 4, 4, 3, 4, 4] := by
  obtain ⟨d, w, h, f, x, y, p, q, c⟩ := img
  cases f <;> exact ⟨by simp [PixelFormat.toNat, bytesPerPixel], rfl, rfl⟩

/-- C9: `getBufferSize` gives 8,294,400 for RGBA 1920 x 1080, but for RGBA
32768 x 32768 it gives 0 although the product of width, height and bytes per
pixel is 4,294,967,296: the `unsigned int` product wraps. -/
theorem getBufferSize_wraps :
    (ImageWrapper.new 0 1920 1080 PixelFormat.RGBA 0 0).getBufferSize = some 8294400 ∧
      (ImageWrapper.new 0 32768 32768 PixelFormat.RGBA 0 0).getBufferSize = some 0 ∧
      32768 * 32768 * specBytesPerPixel PixelFormat.RGBA = 4294967296 := by
  decide

/-! ### Stopping -/

/-- C4: with the stream button released, a tick is exactly `_stopStreaming`, and
`_stopStreaming` leaves the timer stopped, the status text cleared, the session
map empty and the identity counter at 0, whatever they were before. -/
theorem stop_teardown (env : Env) (w : MainWindow) (h : w.streamButtonChecked = false) :
    MainWindow._update env w = Except.ok (MainWindow._stopStreaming w) ∧
      (MainWindow._stopStreaming w).updateTimer = none ∧
      (MainWindow._stopStreaming w).statusMessage = "" ∧
      (MainWindow._stopStreaming w)._streams = [] ∧
      (MainWindow._stopStreaming w)._streamID = 0 := by
  simp [MainWindow._update, MainWindow._stopStreaming, h]

/-- C4 at a window with two live sessions, a status text and the counter at 2. -/
theorem stop_teardown_witness :
    twoSessionWindow._streams.length = 2 ∧ twoSessionWindow._streamID = 2 ∧
      twoSessionWindow.streamButtonChecked = false ∧
      (MainWindow._update exampleEnv twoSessionWindow =
          Except.ok (MainWindow._stopStreaming twoSessionWindow) ∧
        (MainWindow._stopStreaming twoSessionWindow).updateTimer = none ∧
        (MainWindow._stopStreaming twoSessionWindow).statusMessage = "" ∧
        (MainWindow._stopStreaming twoSessionWindow)._streams = [] ∧
        (MainWindow._stopStreaming twoSessionWindow)._streamID = 0) :=
  ⟨rfl, rfl, rfl, stop_teardown exampleEnv twoSessionWindow rfl⟩

/-! ### Frame-rate regulator -/

theorem regulate_average (env : Env) (w : MainWindow) :
    (MainWindow._regulateFrameRate env w)._averageUpdate =
      1 / 10 * (env.elapsed : ℚ) + 9 / 10 * w._averageUpdate := by
  unfold MainWindow._regulateFrameRate
  simp only [FRAME_RATE_DAMPING]
  split <;> norm_num

theorem regulate_timer (env : Env) (w : MainWindow) :
    (MainWindow._regulateFrameRate env w).updateTimer =
      some (max (floatToInt (1 / 2 + 1000 / (env.maxFrameRate : ℚ)) -
        floatToInt ((MainWindow._regulateFrameRate env w)._averageUpdate)) 0) := by
  rw [regulate_average]
  unfold MainWindow._regulateFrameRate
  simp only [FRAME_RATE_DAMPING, SHARE_DESKTOP_UPDATE_DELAY]
  split <;> norm_num

theorem regulateTicks_succ (env : Env) (w : MainWindow) (n : Nat) :
    MainWindow.regulateTicks env w (n + 1) =
      MainWindow._regulateFrameRate env (MainWindow.regulateTicks env w n) := by
  simp [MainWindow.regulateTicks, Function.iterate_succ_apply']

theorem regulateTicks_average (env : Env) (w : MainWindow) (h0 : w._averageUpdate = 0)
    (n : Nat) :
    (MainWindow.regulateTicks env w n)._averageUpdate =
      (env.elapsed : ℚ) * (1 - (9 / 10) ^ n) := by
  induction n with
  | zero => simp [MainWindow.regulateTicks, h0]
  | succ n ih =>
    rw [regulateTicks_succ, regulate_average, ih]
    ring

theorem floatToInt_of_nonneg {q : ℚ} (h : 0 ≤ q) : floatToInt q = ⌊q⌋ := by
  simp [floatToInt, h]

/-- C5: starting from an average of 0 and measuring the same elapsed time
`E ≥ 0` on every tick, each run of `_regulateFrameRate` multiplies the error
`|E - average|` by exactly 9/10, the average after `n` ticks is `E * (1 - (9/10)^n)`,
it does not decrease from one tick to the next, and it never exceeds `E` (exact
rational arithmetic). -/
theorem regulator_convergence (env : Env) (w : MainWindow) (n : Nat)
    (hE : 0 ≤ env.elapsed) (h0 : w._averageUpdate = 0) :
    |(env.elapsed : ℚ) - (MainWindow.regulateTicks env w (n + 1))._averageUpdate| =
        9 / 10 * |(env.elapsed : ℚ) - (MainWindow.regulateTicks env w n)._averageUpdate| ∧
      (MainWindow.regulateTicks env w n)._averageUpdate =
        (env.elapsed : ℚ) * (1 - (9 / 10) ^ n) ∧
      (MainWindow.regulateTicks env w n)._averageUpdate ≤
        (MainWindow.regulateTicks env w (n + 1))._averageUpdate ∧
      (MainWindow.regulateTicks env w n)._averageUpdate ≤ (env.elapsed : ℚ) := by
  have hE' : (0 : ℚ) ≤ env.elapsed := by exact_mod_cast hE
  have hp : (0 : ℚ) ≤ (9 / 10) ^ n := by positivity
  refine ⟨?_, regulateTicks_average env w h0 n, ?_, ?_⟩
  · rw [regulateTicks_succ, regulate_average]
    have : (env.elapsed : ℚ) - (1 / 10 * (env.elapsed : ℚ) +
        9 / 10 * (MainWindow.regulateTicks env w n)._averageUpdate) =
        9 / 10 * ((env.elapsed : ℚ) - (MainWindow.regulateTicks env w n)._averageUpdate) := by
      ring
    rw [this, abs_mul, abs_of_pos (by norm_num : (0 : ℚ) < 9 / 10)]
  · rw [regulateTicks_average env w h0, regulateTicks_average env w h0, pow_succ]
    nlinarith [mul_nonneg hE' hp]
  · rw [regulateTicks_average env w h0]
    nlinarith [mul_nonneg hE' hp]

/-- C5 at 33 ms per tick, from the second to the third tick. -/
theorem regulator_convergence_witness :
    |(exampleEnv.elapsed : ℚ) -
          (MainWindow.regulateTicks exampleEnv (MainWindow.initial []) (2 + 1))._averageUpdate| =
        9 / 10 * |(exampleEnv.elapsed : ℚ) -
          (MainWindow.regulateTicks exampleEnv (MainWindow.initial []) 2)._averageUpdate| ∧
      (MainWindow.regulateTicks exampleEnv (MainWindow.initial []) 2)._averageUpdate =
        (exampleEnv.elapsed : ℚ) * (1 - (9 / 10) ^ 2) ∧
      (MainWindow.regulateTicks exampleEnv (MainWindow.initial []) 2)._averageUpdate ≤
        (MainWindow.regulateTicks exampleEnv (MainWindow.initial []) (2 + 1))._averageUpdate ∧
      (MainWindow.regulateTicks exampleEnv (MainWindow.initial []) 2)._averageUpdate ≤
        (exampleEnv.elapsed : ℚ) :=
  regulator_convergence exampleEnv (MainWindow.initial []) 2 (by decide) rfl

/-! ### Frame-rate regulator in single precision -/

/-- C7: a tick in single-window mode with the button pressed, no session and a
host that refuses the connection ends with no session and the button still
pressed, and arms the delay 33 computed by the regulator, not
`FAILURE_UPDATE_DELAY`. -/
theorem retry_delay_not_armed :
    ∃ w, MainWindow._update singleFailEnv (startedWindow []) = Except.ok w ∧
      w._streams = [] ∧ w.streamButtonChecked = true ∧
      w.updateTimer = some 33 ∧ w.updateTimer ≠ some FAILURE_UPDATE_DELAY := by
  have hd : floatToInt (203 / 6 : ℚ) = 33 := by
    rw [floatToInt_of_nonneg (by norm_num), Int.floor_eq_iff]
    norm_num
  have ht := regulate_timer singleFailEnv
    { _streams := [], _streamID := 0, _averageUpdate := 0, streamButtonChecked := true,
      selectedIndexes := [], updateTimer := none, statusMessage := "connection refused",
      allocated := 1, calls := [Call.makeStream ⟨none⟩ none] }
  rw [regulate_average] at ht
  have he : singleFailEnv.maxFrameRate = 30 := rfl
  have he2 : singleFailEnv.elapsed = 0 := rfl
  rw [he, he2] at ht
  norm_num [hd, floatToInt] at ht
  refine ⟨_, rfl, rfl, rfl, ?_⟩
  have hgoal : ∀ t : Option Int, t = some 33 → t = some 33 ∧ t ≠ some FAILURE_UPDATE_DELAY := by
    intro t h
    subst h
    exact ⟨rfl, by simp [FAILURE_UPDATE_DELAY]⟩
  exact hgoal _ ht

/-! ### Session map and reconciliation -/

theorem find?_assign (m : StreamMap) (index k : QPersistentModelIndex) (s : Stream) :
    StreamMap.find? (StreamMap.assign m index s) k =
      if index = k then some s else StreamMap.find? m k := by
  induction m with
  | nil => simp [StreamMap.assign, StreamMap.find?]
  | cons e rest ih =>
    obtain ⟨k', v⟩ := e
    unfold StreamMap.assign
    by_cases h1 : index.less k' = true
    · simp [h1, StreamMap.find?]
    · by_cases h2 : k' = index
      · subst h2
        simp only [h1, Bool.false_eq_true, if_false, if_true, StreamMap.find?]
        split <;> rfl
      · simp only [h1, h2, Bool.false_eq_true, if_false, StreamMap.find?, ih]
        by_cases h3 : k' = k
        · subst h3
          have : ¬ index = k' := fun h => h2 h.symm
          simp [this]
        · simp [h3]

theorem find?_emplace (m : StreamMap) (index k : QPersistentModelIndex) (s : Stream) :
    StreamMap.find? (StreamMap.emplace m index s) k =
      if index = k then some ((StreamMap.find? m k).getD s) else StreamMap.find? m k := by
  unfold StreamMap.emplace StreamMap.count
  by_cases hk : index = k
  · subst hk
    cases hf : StreamMap.find? m index with
    | none => simp [hf, find?_assign]
    | some x => simp [hf]
  · cases hf : StreamMap.find? m index with
    | none => simp [hf, find?_assign, hk]
    | some x => simp [hf, hk]

theorem find?_eq_none_iff (m : StreamMap) (k : QPersistentModelIndex) :
    StreamMap.find? m k = none ↔ k ∉ StreamMap.keys m := by
  induction m with
  | nil => simp [StreamMap.find?, StreamMap.keys]
  | cons e rest ih =>
    obtain ⟨k', v⟩ := e
    by_cases h : k' = k
    · simp [StreamMap.find?, StreamMap.keys, h]
    · have h' : ¬ k = k' := fun e => h e.symm
      simp only [StreamMap.keys] at ih
      simp [StreamMap.find?, StreamMap.keys, h, h', ih]

theorem loop_nil (env : Env) (w : MainWindow) (streams : StreamMap) :
    MainWindow.updateMultipleLoop env [] w streams = (w, streams) := rfl

theorem loop_cons_live (env : Env) (w : MainWindow) (streams : StreamMap)
    (index : QPersistentModelIndex) (rest : List QPersistentModelIndex) (s : Stream)
    (h : StreamMap.find? w._streams index = some s) :
    MainWindow.updateMultipleLoop env (index :: rest) w streams =
      MainWindow.updateMultipleLoop env rest w (StreamMap.assign streams index s) := by
  rw [MainWindow.updateMultipleLoop]
  simp only [h]

theorem loop_cons_created (env : Env) (w : MainWindow) (streams : StreamMap)
    (index : QPersistentModelIndex) (rest : List QPersistentModelIndex)
    (h : StreamMap.find? w._streams index = none)
    (hc : MainWindow.attemptOutcome env w index = none) :
    MainWindow.updateMultipleLoop env (index :: rest) w streams =
      MainWindow.updateMultipleLoop env rest
        { w with
          _streamID := (w._streamID + 1) % UINT_MOD
          allocated := w.allocated + 1
          calls := w.calls ++
            [Call.makeStream index (some (MainWindow.attemptStream env w index))] }
        (StreamMap.emplace streams index (MainWindow.attemptStream env w index)) := by
  rw [MainWindow.updateMultipleLoop]
  simp only [MainWindow.attemptOutcome, MainWindow.attemptStream] at hc
  simp only [h, MainWindow._makeStream, hc, MainWindow.attemptStream]

theorem loop_cons_failed (env : Env) (w : MainWindow) (streams : StreamMap)
    (index : QPersistentModelIndex) (rest : List QPersistentModelIndex) (msg : String)
    (h : StreamMap.find? w._streams index = none)
    (hc : MainWindow.attemptOutcome env w index = some msg) :
    MainWindow.updateMultipleLoop env (index :: rest) w streams =
      MainWindow.updateMultipleLoop env rest
        { w with
          _streamID := (w._streamID + 1) % UINT_MOD
          allocated := w.allocated + 1
          calls := w.calls ++ [Call.makeStream index none]
          statusMessage := msg }
        streams := by
  rw [MainWindow.updateMultipleLoop]
  simp only [MainWindow.attemptOutcome, MainWindow.attemptStream] at hc
  simp only [h, MainWindow._makeStream, hc, MainWindow._showConnectionErrorStatus]

theorem loop_streams (env : Env) (rest : List QPersistentModelIndex) :
    ∀ (w : MainWindow) (streams : StreamMap),
      (MainWindow.updateMultipleLoop env rest w streams).1._streams = w._streams ∧
      (MainWindow.updateMultipleLoop env rest w streams).1.selectedIndexes =
        w.selectedIndexes ∧
      (MainWindow.updateMultipleLoop env rest w streams).1.streamButtonChecked =
        w.streamButtonChecked ∧
      w.allocated ≤ (MainWindow.updateMultipleLoop env rest w streams).1.allocated := by
  induction rest with
  | nil => intro w streams; simp [loop_nil]
  | cons index rest ih =>
    intro w streams
    cases hf : StreamMap.find? w._streams index with
    | some s =>
      rw [loop_cons_live env w streams index rest s hf]
      exact ih w _
    | none =>
      cases hc : MainWindow.attemptOutcome env w index with
      | none =>
        rw [loop_cons_created env w streams index rest hf hc]
        obtain ⟨h1, h2, h3, h4⟩ := ih
          { w with
            _streamID := (w._streamID + 1) % UINT_MOD
            allocated := w.allocated + 1
            calls := w.calls ++
              [Call.makeStream index (some (MainWindow.attemptStream env w index))] }
          (StreamMap.emplace streams index (MainWindow.attemptStream env w index))
        exact ⟨h1, h2, h3, by simp only at h4; omega⟩
      | some msg =>
        rw [loop_cons_failed env w streams index rest msg hf hc]
        obtain ⟨h1, h2, h3, h4⟩ := ih
          { w with
            _streamID := (w._streamID + 1) % UINT_MOD
            allocated := w.allocated + 1
            calls := w.calls ++ [Call.makeStream index none]
            statusMessage := msg }
          streams
        exact ⟨h1, h2, h3, by simp only at h4; omega⟩

/-- Keys outside the remaining indices keep their entry of the local map. -/
theorem loop_find?_of_not_mem (env : Env) (k : QPersistentModelIndex)
    (rest : List QPersistentModelIndex) :
    ∀ (w : MainWindow) (streams : StreamMap), k ∉ rest →
      StreamMap.find? (MainWindow.updateMultipleLoop env rest w streams).2 k =
        StreamMap.find? streams k := by
  induction rest with
  | nil => intro w streams _; rfl
  | cons index rest ih =>
    intro w streams hk
    have hne : ¬ index = k := fun e => hk (by simp [e])
    have hk' : k ∉ rest := fun e => hk (by simp [e])
    cases hf : StreamMap.find? w._streams index with
    | some s =>
      rw [loop_cons_live env w streams index rest s hf, ih _ _ hk', find?_assign, if_neg hne]
    | none =>
      cases hc : MainWindow.attemptOutcome env w index with
      | none =>
        rw [loop_cons_created env w streams index rest hf hc, ih _ _ hk', find?_emplace,
          if_neg hne]
      | some msg =>
        rw [loop_cons_failed env w streams index rest msg hf hc, ih _ _ hk']

/-- A key that is live in the old map ends up with its old session as soon as it
is among the remaining indices or already holds it in the local map. -/
theorem loop_find?_of_live (env : Env) (k : QPersistentModelIndex) (s : Stream)
    (rest : List QPersistentModelIndex) :
    ∀ (w : MainWindow) (streams : StreamMap), StreamMap.find? w._streams k = some s →
      (k ∈ rest ∨ StreamMap.find? streams k = some s) →
      StreamMap.find? (MainWindow.updateMultipleLoop env rest w streams).2 k = some s := by
  induction rest with
  | nil =>
    intro w streams _ h
    rcases h with h | h
    · simp at h
    · exact h
  | cons index rest ih =>
    intro w streams hold h
    cases hf : StreamMap.find? w._streams index with
    | some s' =>
      rw [loop_cons_live env w streams index rest s' hf]
      apply ih w _ hold
      by_cases hik : index = k
      · right
        subst hik
        rw [find?_assign, if_pos rfl, ← hf, hold]
      · rcases h with h | h
        · left
          rcases List.mem_cons.mp h with e | h
          · exact absurd e.symm hik
          · exact h
        · right
          rw [find?_assign, if_neg hik, h]
    | none =>
      have hik : ¬ index = k := by
        intro e
        rw [e, hold] at hf
        cases hf
      have h' : k ∈ rest ∨ StreamMap.find? streams k = some s := by
        rcases h with h | h
        · left
          rcases List.mem_cons.mp h with e | h
          · exact absurd e.symm hik
          · exact h
        · exact Or.inr h
      cases hc : MainWindow.attemptOutcome env w index with
      | none =>
        rw [loop_cons_created env w streams index rest hf hc]
        refine ih _ _ ?_ ?_
        · exact hold
        · rcases h' with h' | h'
          · exact Or.inl h'
          · right
            rw [find?_emplace, if_neg hik, h']
      | some msg =>
        rw [loop_cons_failed env w streams index rest msg hf hc]
        refine ih _ _ ?_ h'
        exact hold

/-- The calls of the loop are appended to the record, and each is a construction
for a remaining index that is not live in the old map. -/
theorem loop_calls (env : Env) (rest : List QPersistentModelIndex) :
    ∀ (w : MainWindow) (streams : StreamMap),
      ∃ new : List Call,
        (MainWindow.updateMultipleLoop env rest w streams).1.calls = w.calls ++ new ∧
        ∀ c ∈ new, ∃ i created, c = Call.makeStream i created ∧ i ∈ rest ∧
          StreamMap.find? w._streams i = none := by
  induction rest with
  | nil => intro w streams; exact ⟨[], by simp [loop_nil]⟩
  | cons index rest ih =>
    intro w streams
    cases hf : StreamMap.find? w._streams index with
    | some s =>
      rw [loop_cons_live env w streams index rest s hf]
      obtain ⟨new, h1, h2⟩ := ih w (StreamMap.assign streams index s)
      refine ⟨new, h1, fun c hc => ?_⟩
      obtain ⟨i, created, e, hi, hn⟩ := h2 c hc
      exact ⟨i, created, e, List.mem_cons_of_mem _ hi, hn⟩
    | none =>
      cases hc : MainWindow.attemptOutcome env w index with
      | none =>
        rw [loop_cons_created env w streams index rest hf hc]
        obtain ⟨new, h1, h2⟩ := ih
          { w with
            _streamID := (w._streamID + 1) % UINT_MOD
            allocated := w.allocated + 1
            calls := w.calls ++
              [Call.makeStream index (some (MainWindow.attemptStream env w index))] }
          (StreamMap.emplace streams index (MainWindow.attemptStream env w index))
        refine ⟨Call.makeStream index (some (MainWindow.attemptStream env w index)) :: new,
          by rw [h1]; simp, fun c hc => ?_⟩
        rcases List.mem_cons.mp hc with e | hc
        · exact ⟨index, _, e, List.mem_cons_self _ _, hf⟩
        · obtain ⟨i, created, e, hi, hn⟩ := h2 c hc
          exact ⟨i, created, e, List.mem_cons_of_mem _ hi, hn⟩
      | some msg =>
        rw [loop_cons_failed env w streams index rest msg hf hc]
        obtain ⟨new, h1, h2⟩ := ih
          { w with
            _streamID := (w._streamID + 1) % UINT_MOD
            allocated := w.allocated + 1
            calls := w.calls ++ [Call.makeStream index none]
            statusMessage := msg }
          streams
        refine ⟨Call.makeStream index none :: new, by rw [h1]; simp, fun c hc => ?_⟩
        rcases List.mem_cons.mp hc with e | hc
        · exact ⟨index, _, e, List.mem_cons_self _ _, hf⟩
        · obtain ⟨i, created, e, hi, hn⟩ := h2 c hc
          exact ⟨i, created, e, List.mem_cons_of_mem _ hi, hn⟩

/-- An entry of the local map for a key that is not live in the old map is never
replaced. -/
theorem loop_find?_of_emplaced (env : Env) (k : QPersistentModelIndex) (x : Stream)
    (rest : List QPersistentModelIndex) :
    ∀ (w : MainWindow) (streams : StreamMap), StreamMap.find? w._streams k = none →
      StreamMap.find? streams k = some x →
      StreamMap.find? (MainWindow.updateMultipleLoop env rest w streams).2 k = some x := by
  induction rest with
  | nil => intro w streams _ h; exact h
  | cons index rest ih =>
    intro w streams hold h
    cases hf : StreamMap.find? w._streams index with
    | some s' =>
      have hik : ¬ index = k := by
        intro e
        rw [e, hold] at hf
        cases hf
      rw [loop_cons_live env w streams index rest s' hf]
      refine ih w _ hold ?_
      rw [find?_assign, if_neg hik, h]
    | none =>
      cases hc : MainWindow.attemptOutcome env w index with
      | none =>
        rw [loop_cons_created env w streams index rest hf hc]
        refine ih _ _ ?_ ?_
        · exact hold
        · rw [find?_emplace, h]
          simp
      | some msg =>
        rw [loop_cons_failed env w streams index rest msg hf hc]
        refine ih _ _ ?_ h
        exact hold

/-- A remaining key that is not live and whose construction succeeds ends up
with a session built by this very loop. -/
theorem loop_find?_of_created (env : Env) (k : QPersistentModelIndex)
    (hsucc : ∀ id host pid, env.streamCtor k id host pid = none)
    (rest : List QPersistentModelIndex) :
    ∀ (w : MainWindow) (streams : StreamMap), StreamMap.find? w._streams k = none →
      StreamMap.find? streams k = none → k ∈ rest →
      ∃ (s : Stream) (new : List Call),
        StreamMap.find? (MainWindow.updateMultipleLoop env rest w streams).2 k = some s ∧
        s.index = k ∧ w.allocated ≤ s.object ∧
        s.object < (MainWindow.updateMultipleLoop env rest w streams).1.allocated ∧
        (MainWindow.updateMultipleLoop env rest w streams).1.calls = w.calls ++ new ∧
        Call.makeStream k (some s) ∈ new := by
  induction rest with
  | nil => intro w streams _ _ h; simp at h
  | cons index rest ih =>
    intro w streams hold hnone hmem
    by_cases hik : index = k
    · subst hik
      have hc : MainWindow.attemptOutcome env w index = none := hsucc _ _ _
      rw [loop_cons_created env w streams index rest hold hc]
      have hfind := loop_find?_of_emplaced env index (MainWindow.attemptStream env w index) rest
        { w with
          _streamID := (w._streamID + 1) % UINT_MOD
          allocated := w.allocated + 1
          calls := w.calls ++
            [Call.makeStream index (some (MainWindow.attemptStream env w index))] }
        (StreamMap.emplace streams index (MainWindow.attemptStream env w index))
        hold (by rw [find?_emplace, hnone]; simp)
      obtain ⟨new, h1, _⟩ := loop_calls env rest
        { w with
          _streamID := (w._streamID + 1) % UINT_MOD
          allocated := w.allocated + 1
          calls := w.calls ++
            [Call.makeStream index (some (MainWindow.attemptStream env w index))] }
        (StreamMap.emplace streams index (MainWindow.attemptStream env w index))
      have hal := (loop_streams env rest
        { w with
          _streamID := (w._streamID + 1) % UINT_MOD
          allocated := w.allocated + 1
          calls := w.calls ++
            [Call.makeStream index (some (MainWindow.attemptStream env w index))] }
        (StreamMap.emplace streams index (MainWindow.attemptStream env w index))).2.2.2
      refine ⟨MainWindow.attemptStream env w index,
        Call.makeStream index (some (MainWindow.attemptStream env w index)) :: new,
        hfind, rfl, le_refl _, ?_, by rw [h1]; simp, List.mem_cons_self _ _⟩
      simp only at hal
      show w.allocated < _
      omega
    · have hmem' : k ∈ rest := by
        rcases List.mem_cons.mp hmem with e | h
        · exact absurd e.symm hik
        · exact h
      cases hf : StreamMap.find? w._streams index with
      | some s' =>
        rw [loop_cons_live env w streams index rest s' hf]
        exact ih w _ hold (by rw [find?_assign, if_neg hik, hnone]) hmem'
      | none =>
        cases hc : MainWindow.attemptOutcome env w index with
        | none =>
          rw [loop_cons_created env w streams index rest hf hc]
          obtain ⟨s, new, h1, h2, h3, h4, h5, h6⟩ := ih
            { w with
              _streamID := (w._streamID + 1) % UINT_MOD
              allocated := w.allocated + 1
              calls := w.calls ++
                [Call.makeStream index (some (MainWindow.attemptStream env w index))] }
            (StreamMap.emplace streams index (MainWindow.attemptStream env w index))
            hold (by rw [find?_emplace, if_neg hik, hnone]) hmem'
          refine ⟨s, Call.makeStream index (some (MainWindow.attemptStream env w index)) :: new,
            h1, h2, ?_, h4, by rw [h5]; simp, List.mem_cons_of_mem _ h6⟩
          simp only at h3
          omega
        | some msg =>
          rw [loop_cons_failed env w streams index rest msg hf hc]
          obtain ⟨s, new, h1, h2, h3, h4, h5, h6⟩ := ih
            { w with
              _streamID := (w._streamID + 1) % UINT_MOD
              allocated := w.allocated + 1
              calls := w.calls ++ [Call.makeStream index none]
              statusMessage := msg }
            streams hold hnone hmem'
          refine ⟨s, Call.makeStream index none :: new,
            h1, h2, ?_, h4, by rw [h5]; simp, List.mem_cons_of_mem _ h6⟩
          simp only at h3
          omega

theorem updateMultiple_streams (env : Env) (w : MainWindow)
    (hflag : env.DEFLECT_USE_QT5MACEXTRAS = true) :
    (MainWindow._updateMultipleStreams env w)._streams =
        (MainWindow.updateMultipleLoop env w.selectedIndexes w []).2 ∧
      (MainWindow._updateMultipleStreams env w).selectedIndexes = w.selectedIndexes ∧
      (MainWindow._updateMultipleStreams env w).allocated =
        (MainWindow.updateMultipleLoop env w.selectedIndexes w []).1.allocated ∧
      (MainWindow._updateMultipleStreams env w).statusMessage =
        (MainWindow.updateMultipleLoop env w.selectedIndexes w []).1.statusMessage ∧
      ((MainWindow._updateMultipleStreams env w).calls =
          (MainWindow.updateMultipleLoop env w.selectedIndexes w []).1.calls ∨
        (MainWindow._updateMultipleStreams env w).calls =
          (MainWindow.updateMultipleLoop env w.selectedIndexes w []).1.calls ++
            [Call.setChecked true]) := by
  unfold MainWindow._updateMultipleStreams
  simp only [hflag, if_true]
  have hsel := (loop_streams env w.selectedIndexes w []).2.1
  split
  · exact ⟨rfl, hsel, rfl, rfl, Or.inr rfl⟩
  · exact ⟨rfl, hsel, rfl, rfl, Or.inl rfl⟩

/-- The calls of one reconciliation are appended to the record; they are
constructions for selected indices that are not live, and possibly the press of
the stream button. -/
theorem updateMultiple_calls (env : Env) (w : MainWindow)
    (hflag : env.DEFLECT_USE_QT5MACEXTRAS = true) :
    ∃ new : List Call,
      (MainWindow._updateMultipleStreams env w).calls = w.calls ++ new ∧
      ∀ (i : QPersistentModelIndex) (created : Option Stream),
        Call.makeStream i created ∈ new →
          i ∈ w.selectedIndexes ∧ StreamMap.find? w._streams i = none := by
  obtain ⟨new, h1, h2⟩ := loop_calls env w.selectedIndexes w []
  have key : ∀ (i : QPersistentModelIndex) (created : Option Stream),
      Call.makeStream i created ∈ new →
        i ∈ w.selectedIndexes ∧ StreamMap.find? w._streams i = none := by
    intro i created hc
    obtain ⟨j, cr, e, hj, hn⟩ := h2 _ hc
    cases e
    exact ⟨hj, hn⟩
  rcases (updateMultiple_streams env w hflag).2.2.2.2 with h | h
  · exact ⟨new, by rw [h, h1], key⟩
  · refine ⟨new ++ [Call.setChecked true], by rw [h, h1, List.append_assoc], ?_⟩
    intro i created hc
    rcases List.mem_append.mp hc with hc | hc
    · exact key i created hc
    · simp at hc

/-- C1: in a build with `DEFLECT_USE_QT5MACEXTRAS`, after `_updateMultipleStreams`
(a) every selected key that was in the old map is mapped to the very same
session, (b) every selected key that was not in the old map and whose
construction succeeds is mapped to a session allocated and constructed by this
call, and (c) no key outside the selection is in the map. -/
theorem updateMultipleStreams_contract (env : Env) (w : MainWindow)
    (hflag : env.DEFLECT_USE_QT5MACEXTRAS = true) :
    (∀ (k : QPersistentModelIndex) (s : Stream), k ∈ w.selectedIndexes →
        StreamMap.find? w._streams k = some s →
        StreamMap.find? (MainWindow._updateMultipleStreams env w)._streams k = some s) ∧
      (∀ k : QPersistentModelIndex, k ∈ w.selectedIndexes →
        StreamMap.find? w._streams k = none →
        (∀ id host pid, env.streamCtor k id host pid = none) →
        ∃ (s : Stream) (new : List Call),
          StreamMap.find? (MainWindow._updateMultipleStreams env w)._streams k = some s ∧
          s.index = k ∧ w.allocated ≤ s.object ∧
          s.object < (MainWindow._updateMultipleStreams env w).allocated ∧
          (MainWindow._updateMultipleStreams env w).calls = w.calls ++ new ∧
          Call.makeStream k (some s) ∈ new) ∧
      (∀ k : QPersistentModelIndex, k ∉ w.selectedIndexes →
        k ∉ StreamMap.keys (MainWindow._updateMultipleStreams env w)._streams) := by
  obtain ⟨hs, _, ha, _, hcalls⟩ := updateMultiple_streams env w hflag
  refine ⟨?_, ?_, ?_⟩
  · intro k s hk hold
    rw [hs]
    exact loop_find?_of_live env k s _ w [] hold (Or.inl hk)
  · intro k hk hold hsucc
    obtain ⟨s, new, h1, h2, h3, h4, h5, h6⟩ :=
      loop_find?_of_created env k hsucc _ w [] hold rfl hk
    rw [hs, ha]
    rcases hcalls with hc | hc
    · exact ⟨s, new, h1, h2, h3, h4, by rw [hc, h5], h6⟩
    · exact ⟨s, new ++ [Call.setChecked true], h1, h2, h3, h4,
        by rw [hc, h5, List.append_assoc], List.mem_append_left _ h6⟩
  · intro k hk
    rw [← find?_eq_none_iff, hs, loop_find?_of_not_mem env k _ w [] hk]
    rfl

/-- C1 at a window streaming A, B, C whose selection is now A, C, D: A and C keep
their sessions, B is dropped, D gets a session built by the call. -/
theorem updateMultipleStreams_contract_witness :
    StreamMap.find? (MainWindow._updateMultipleStreams exampleEnv threeSessionWindow)._streams
        windowA = some (sampleStream 0 windowA "1 app - desk") ∧
      StreamMap.find? (MainWindow._updateMultipleStreams exampleEnv threeSessionWindow)._streams
        windowC = some (sampleStream 2 windowC "3 app - desk") ∧
      windowB ∉
        StreamMap.keys (MainWindow._updateMultipleStreams exampleEnv threeSessionWindow)._streams ∧
      ∃ (s : Stream) (new : List Call),
        StreamMap.find? (MainWindow._updateMultipleStreams exampleEnv threeSessionWindow)._streams
          windowD = some s ∧
        s.index = windowD ∧ threeSessionWindow.allocated ≤ s.object ∧
        s.object < (MainWindow._updateMultipleStreams exampleEnv threeSessionWindow).allocated ∧
        (MainWindow._updateMultipleStreams exampleEnv threeSessionWindow).calls =
          threeSessionWindow.calls ++ new ∧
        Call.makeStream windowD (some s) ∈ new :=
  ⟨(updateMultipleStreams_contract exampleEnv threeSessionWindow rfl).1 windowA _
      (by decide) rfl,
    (updateMultipleStreams_contract exampleEnv threeSessionWindow rfl).1 windowC _
      (by decide) rfl,
    (updateMultipleStreams_contract exampleEnv threeSessionWindow rfl).2.2 windowB (by decide),
    (updateMultipleStreams_contract exampleEnv threeSessionWindow rfl).2.1 windowD
      (by decide) rfl (fun _ _ _ => rfl)⟩

theorem attemptStream_neverFailing (env : Env) (w w0 : MainWindow)
    (index : QPersistentModelIndex) (hid : w._streamID = w0._streamID)
    (hal : w.allocated = w0.allocated) :
    MainWindow.attemptStream env.neverFailing w0 index = MainWindow.attemptStream env w index := by
  simp only [MainWindow.attemptStream, hid, hal]
  rfl

/-- Two runs of the loop, one under `env` and one under the never-failing
environment, stay in step: the local maps agree except on the keys that are not
live and whose construction fails under `env`, which only the second run holds. -/
theorem loop_lockstep (env : Env) (fails : QPersistentModelIndex → Bool)
    (hdet : ∀ i id host pid, (env.streamCtor i id host pid).isSome = fails i)
    (rest : List QPersistentModelIndex) :
    ∀ (w w0 : MainWindow) (streams streams0 : StreamMap),
      w._streams = w0._streams → w._streamID = w0._streamID → w.allocated = w0.allocated →
      (∀ k, StreamMap.find? streams k =
        if StreamMap.find? w._streams k = none ∧ fails k = true then none
        else StreamMap.find? streams0 k) →
      ∀ k, StreamMap.find? (MainWindow.updateMultipleLoop env rest w streams).2 k =
        if StreamMap.find? w._streams k = none ∧ fails k = true then none
        else StreamMap.find?
          (MainWindow.updateMultipleLoop env.neverFailing rest w0 streams0).2 k := by
  induction rest with
  | nil => intro w w0 streams streams0 _ _ _ h k; exact h k
  | cons index rest ih =>
    intro w w0 streams streams0 hs hid hal hrel
    have hc0 : MainWindow.attemptOutcome env.neverFailing w0 index = none := rfl
    cases hf : StreamMap.find? w._streams index with
    | some s =>
      have hf0 : StreamMap.find? w0._streams index = some s := by rw [← hs]; exact hf
      rw [loop_cons_live env w streams index rest s hf,
        loop_cons_live env.neverFailing w0 streams0 index rest s hf0]
      refine ih w w0 _ _ hs hid hal ?_
      intro k
      rw [find?_assign, find?_assign]
      by_cases hik : index = k
      · subst hik
        simp [hf]
      · simp only [hik, if_false]
        exact hrel k
    | none =>
      have hf0 : StreamMap.find? w0._streams index = none := by rw [← hs]; exact hf
      rw [loop_cons_created env.neverFailing w0 streams0 index rest hf0 hc0,
        attemptStream_neverFailing env w w0 index hid hal]
      cases hc : MainWindow.attemptOutcome env w index with
      | none =>
        have hfl : fails index = false := by
          rw [← hdet index _ _ _]
          simp only [MainWindow.attemptOutcome] at hc
          rw [hc]
          rfl
        rw [loop_cons_created env w streams index rest hf hc]
        refine ih _ _ _ _ hs (by simp only [hid]) (by simp only [hal]) ?_
        intro k
        rw [find?_emplace, find?_emplace]
        by_cases hik : index = k
        · subst hik
          have := hrel index
          simp only [hfl, Bool.false_eq_true, and_false, if_false] at this ⊢
          simp [this]
        · simp only [hik, if_false]
          exact hrel k
      | some msg =>
        have hfl : fails index = true := by
          rw [← hdet index _ _ _]
          simp only [MainWindow.attemptOutcome] at hc
          rw [hc]
          rfl
        rw [loop_cons_failed env w streams index rest msg hf hc]
        refine ih _ _ _ _ hs (by simp only [hid]) (by simp only [hal]) ?_
        intro k
        rw [find?_emplace]
        by_cases hik : index = k
        · subst hik
          have := hrel index
          simp only [hf, hfl, and_self, if_true] at this ⊢
          exact this
        · simp only [hik, if_false]
          exact hrel k

/-- The status text after the loop is the one before it or the message of a
construction that failed for a remaining index. -/
theorem loop_status (env : Env) (rest : List QPersistentModelIndex) :
    ∀ (w : MainWindow) (streams : StreamMap),
      (MainWindow.updateMultipleLoop env rest w streams).1.statusMessage = w.statusMessage ∨
      ∃ k id host pid, k ∈ rest ∧ env.streamCtor k id host pid =
        some (MainWindow.updateMultipleLoop env rest w streams).1.statusMessage := by
  induction rest with
  | nil => intro w streams; exact Or.inl rfl
  | cons index rest ih =>
    intro w streams
    have lift : ∀ m : String,
        (∃ k id host pid, k ∈ rest ∧ env.streamCtor k id host pid = some m) →
        ∃ k id host pid, k ∈ index :: rest ∧ env.streamCtor k id host pid = some m := by
      rintro m ⟨k, id, host, pid, hk, e⟩
      exact ⟨k, id, host, pid, List.mem_cons_of_mem _ hk, e⟩
    cases hf : StreamMap.find? w._streams index with
    | some s =>
      rw [loop_cons_live env w streams index rest s hf]
      rcases ih w (StreamMap.assign streams index s) with h | h
      · exact Or.inl h
      · exact Or.inr (lift _ h)
    | none =>
      cases hc : MainWindow.attemptOutcome env w index with
      | none =>
        rw [loop_cons_created env w streams index rest hf hc]
        rcases ih
          { w with
            _streamID := (w._streamID + 1) % UINT_MOD
            allocated := w.allocated + 1
            calls := w.calls ++
              [Call.makeStream index (some (MainWindow.attemptStream env w index))] }
          (StreamMap.emplace streams index (MainWindow.attemptStream env w index)) with h | h
        · exact Or.inl h
        · exact Or.inr (lift _ h)
      | some msg =>
        rw [loop_cons_failed env w streams index rest msg hf hc]
        rcases ih
          { w with
            _streamID := (w._streamID + 1) % UINT_MOD
            allocated := w.allocated + 1
            calls := w.calls ++ [Call.makeStream index none]
            statusMessage := msg }
          streams with h | h
        · right
          refine ⟨index, (MainWindow.attemptStream env w index).id,
            (MainWindow.attemptStream env w index).host,
            (MainWindow.attemptStream env w index).pid, List.mem_cons_self _ _, ?_⟩
          rw [h]
          exact hc
        · exact Or.inr (lift _ h)

/-- When the construction fails for a remaining index that is not live, the
status text after the loop is the message of such a failure. -/
theorem loop_status_of_failure (env : Env) (k : QPersistentModelIndex)
    (hfail : ∀ id host pid, (env.streamCtor k id host pid).isSome = true)
    (rest : List QPersistentModelIndex) :
    ∀ (w : MainWindow) (streams : StreamMap), StreamMap.find? w._streams k = none → k ∈ rest →
      ∃ i id host pid, i ∈ rest ∧ env.streamCtor i id host pid =
        some (MainWindow.updateMultipleLoop env rest w streams).1.statusMessage := by
  induction rest with
  | nil => intro w streams _ h; simp at h
  | cons index rest ih =>
    intro w streams hold hmem
    have lift : ∀ m : String,
        (∃ i id host pid, i ∈ rest ∧ env.streamCtor i id host pid = some m) →
        ∃ i id host pid, i ∈ index :: rest ∧ env.streamCtor i id host pid = some m := by
      rintro m ⟨i, id, host, pid, hi, e⟩
      exact ⟨i, id, host, pid, List.mem_cons_of_mem _ hi, e⟩
    have tail : ¬ index = k → k ∈ rest := by
      intro hik
      rcases List.mem_cons.mp hmem with e | h
      · exact absurd e.symm hik
      · exact h
    cases hf : StreamMap.find? w._streams index with
    | some s =>
      have hik : ¬ index = k := by
        intro e
        rw [e, hold] at hf
        cases hf
      rw [loop_cons_live env w streams index rest s hf]
      exact lift _ (ih w _ hold (tail hik))
    | none =>
      cases hc : MainWindow.attemptOutcome env w index with
      | none =>
        have hik : ¬ index = k := by
          intro e
          subst e
          have := hfail (MainWindow.attemptStream env w index).id
            (MainWindow.attemptStream env w index).host (MainWindow.attemptStream env w index).pid
          simp only [MainWindow.attemptOutcome] at hc
          rw [hc] at this
          cases this
        rw [loop_cons_created env w streams index rest hf hc]
        refine lift _ (ih _ _ ?_ (tail hik))
        exact hold
      | some msg =>
        rw [loop_cons_failed env w streams index rest msg hf hc]
        rcases loop_status env rest
          { w with
            _streamID := (w._streamID + 1) % UINT_MOD
            allocated := w.allocated + 1
            calls := w.calls ++ [Call.makeStream index none]
            statusMessage := msg }
          streams with h | h
        · refine ⟨index, (MainWindow.attemptStream env w index).id,
            (MainWindow.attemptStream env w index).host,
            (MainWindow.attemptStream env w index).pid, List.mem_cons_self _ _, ?_⟩
          rw [h]
          exact hc
        · exact lift _ h

/-- Under the never-failing environment the map after the loop holds exactly the
selected keys. -/
theorem loop_neverFailing_find? (env : Env) (w : MainWindow) (k : QPersistentModelIndex) :
    StreamMap.find?
        (MainWindow.updateMultipleLoop env.neverFailing w.selectedIndexes w []).2 k ≠ none ↔
      k ∈ w.selectedIndexes := by
  constructor
  · intro h
    by_contra hk
    exact h (loop_find?_of_not_mem env.neverFailing k _ w [] hk)
  · intro hk
    cases hold : StreamMap.find? w._streams k with
    | some s =>
      rw [loop_find?_of_live env.neverFailing k s _ w [] hold (Or.inl hk)]
      simp
    | none =>
      obtain ⟨s, _, h1, _⟩ :=
        loop_find?_of_created env.neverFailing k (fun _ _ _ => rfl) _ w [] hold rfl hk
      rw [h1]
      simp

/-- C2: in a build with `DEFLECT_USE_QT5MACEXTRAS`, when the constructions that
fail are those of the keys in `fails`, the map after `_updateMultipleStreams`
holds exactly the selected keys minus the failing keys that were not live, every
other key holds what it holds after the same call under an environment in which
no construction fails, and if some selected key that is not live fails then the
status text is the message of a failed construction for a selected key. -/
theorem partial_failure_isolation (env : Env) (w : MainWindow)
    (fails : QPersistentModelIndex → Bool)
    (hflag : env.DEFLECT_USE_QT5MACEXTRAS = true)
    (hdet : ∀ i id host pid, (env.streamCtor i id host pid).isSome = fails i) :
    (∀ k : QPersistentModelIndex,
        k ∈ StreamMap.keys (MainWindow._updateMultipleStreams env w)._streams ↔
          k ∈ w.selectedIndexes ∧ ¬ (StreamMap.find? w._streams k = none ∧ fails k = true)) ∧
      (∀ k : QPersistentModelIndex,
        ¬ (StreamMap.find? w._streams k = none ∧ fails k = true) →
        StreamMap.find? (MainWindow._updateMultipleStreams env w)._streams k =
          StreamMap.find? (MainWindow._updateMultipleStreams env.neverFailing w)._streams k) ∧
      ((∃ k : QPersistentModelIndex, k ∈ w.selectedIndexes ∧
          StreamMap.find? w._streams k = none ∧ fails k = true) →
        ∃ i id host pid, i ∈ w.selectedIndexes ∧ env.streamCtor i id host pid =
          some (MainWindow._updateMultipleStreams env w).statusMessage) := by
  have hs := (updateMultiple_streams env w hflag).1
  have hs0 := (updateMultiple_streams env.neverFailing w hflag).1
  have hst := (updateMultiple_streams env w hflag).2.2.2.1
  have hrel := loop_lockstep env fails hdet w.selectedIndexes w w [] [] rfl rfl rfl
    (by intro k; simp [StreamMap.find?])
  refine ⟨?_, ?_, ?_⟩
  · intro k
    have hk : k ∈ StreamMap.keys (MainWindow._updateMultipleStreams env w)._streams ↔
        StreamMap.find? (MainWindow._updateMultipleStreams env w)._streams k ≠ none := by
      rw [Ne, find?_eq_none_iff, not_not]
    rw [hk, hs, hrel k]
    by_cases hc : StreamMap.find? w._streams k = none ∧ fails k = true
    · simp [hc]
    · simp only [hc, if_false, not_false_eq_true, and_true]
      exact loop_neverFailing_find? env w k
  · intro k hc
    rw [hs, hs0, hrel k, if_neg hc]
  · rintro ⟨k, hk, hold, hf⟩
    rw [hst]
    refine loop_status_of_failure env k ?_ _ w [] hold hk
    intro id host pid
    rw [hdet, hf]

/-- C2 at the selection A, B, C with the session of B refused: the map holds
exactly A and C. -/
theorem partial_failure_isolation_witness :
    StreamMap.keys
        (MainWindow._updateMultipleStreams refuseBEnv
          (startedWindow [windowA, windowB, windowC]))._streams = [windowA, windowC] ∧
      (MainWindow._updateMultipleStreams refuseBEnv
          (startedWindow [windowA, windowB, windowC])).statusMessage = "connection refused" ∧
      (windowB ∈ StreamMap.keys
          (MainWindow._updateMultipleStreams refuseBEnv
            (startedWindow [windowA, windowB, windowC]))._streams ↔
        windowB ∈ (startedWindow [windowA, windowB, windowC]).selectedIndexes ∧
          ¬ (StreamMap.find? (startedWindow [windowA, windowB, windowC])._streams windowB = none ∧
            decide (windowB = windowB) = true)) ∧
      StreamMap.find?
          (MainWindow._updateMultipleStreams refuseBEnv
            (startedWindow [windowA, windowB, windowC]))._streams windowC =
        StreamMap.find?
          (MainWindow._updateMultipleStreams refuseBEnv.neverFailing
            (startedWindow [windowA, windowB, windowC]))._streams windowC ∧
      ∃ i id host pid, i ∈ (startedWindow [windowA, windowB, windowC]).selectedIndexes ∧
        refuseBEnv.streamCtor i id host pid =
          some (MainWindow._updateMultipleStreams refuseBEnv
            (startedWindow [windowA, windowB, windowC])).statusMessage :=
  have hdet : ∀ i id host pid,
      (refuseBEnv.streamCtor i id host pid).isSome = decide (i = windowB) := by
    intro i id host pid
    by_cases h : i = windowB <;> simp [refuseBEnv, h]
  ⟨by decide, by decide,
    (partial_failure_isolation refuseBEnv (startedWindow [windowA, windowB, windowC])
      (fun i => decide (i = windowB)) rfl hdet).1 windowB,
    (partial_failure_isolation refuseBEnv (startedWindow [windowA, windowB, windowC])
      (fun i => decide (i = windowB)) rfl hdet).2.1 windowC (by decide),
    (partial_failure_isolation refuseBEnv (startedWindow [windowA, windowB, windowC])
      (fun i => decide (i = windowB)) rfl hdet).2.2 ⟨windowB, by decide, rfl, by decide⟩⟩

/-- A key that is not live and whose construction always fails stays out of the
local map. -/
theorem loop_find?_of_failed (env : Env) (k : QPersistentModelIndex)
    (hfail : ∀ id host pid, (env.streamCtor k id host pid).isSome = true)
    (rest : List QPersistentModelIndex) :
    ∀ (w : MainWindow) (streams : StreamMap), StreamMap.find? w._streams k = none →
      StreamMap.find? streams k = none →
      StreamMap.find? (MainWindow.updateMultipleLoop env rest w streams).2 k = none := by
  induction rest with
  | nil => intro w streams _ h; exact h
  | cons index rest ih =>
    intro w streams hold hnone
    cases hf : StreamMap.find? w._streams index with
    | some s =>
      have hik : ¬ index = k := by
        intro e
        rw [e, hold] at hf
        cases hf
      rw [loop_cons_live env w streams index rest s hf]
      exact ih w _ hold (by rw [find?_assign, if_neg hik, hnone])
    | none =>
      cases hc : MainWindow.attemptOutcome env w index with
      | none =>
        have hik : ¬ index = k := by
          intro e
          subst e
          have := hfail (MainWindow.attemptStream env w index).id
            (MainWindow.attemptStream env w index).host (MainWindow.attemptStream env w index).pid
          simp only [MainWindow.attemptOutcome] at hc
          rw [hc] at this
          cases this
        rw [loop_cons_created env w streams index rest hf hc]
        refine ih _ _ ?_ (by rw [find?_emplace, if_neg hik, hnone])
        exact hold
      | some msg =>
        rw [loop_cons_failed env w streams index rest msg hf hc]
        refine ih _ _ ?_ hnone
        exact hold

theorem updateMultiple_find?_of_live (env : Env) (w : MainWindow)
    (hflag : env.DEFLECT_USE_QT5MACEXTRAS = true) (k : QPersistentModelIndex) (s : Stream)
    (hk : k ∈ w.selectedIndexes) (hold : StreamMap.find? w._streams k = some s) :
    StreamMap.find? (MainWindow._updateMultipleStreams env w)._streams k = some s := by
  rw [(updateMultiple_streams env w hflag).1]
  exact loop_find?_of_live env k s _ w [] hold (Or.inl hk)

theorem updateMultiple_find?_of_not_mem (env : Env) (w : MainWindow)
    (hflag : env.DEFLECT_USE_QT5MACEXTRAS = true) (k : QPersistentModelIndex)
    (hk : k ∉ w.selectedIndexes) :
    StreamMap.find? (MainWindow._updateMultipleStreams env w)._streams k = none := by
  rw [(updateMultiple_streams env w hflag).1, loop_find?_of_not_mem env k _ w [] hk]
  rfl

/-- C10, as the code has it: in a build with `DEFLECT_USE_QT5MACEXTRAS`, a second
`_updateMultipleStreams` on the unchanged selection maps every key that is live
after the first one to the very same session and constructs no session for such
a key; the two maps are the same provided every construction that the second
call retries, for a selected key that is not live after the first, fails. -/
theorem reconcile_twice (env1 env2 : Env) (w : MainWindow)
    (h1 : env1.DEFLECT_USE_QT5MACEXTRAS = true) (h2 : env2.DEFLECT_USE_QT5MACEXTRAS = true) :
    (MainWindow._updateMultipleStreams env1 w).selectedIndexes = w.selectedIndexes ∧
      (∀ (k : QPersistentModelIndex) (s : Stream),
        StreamMap.find? (MainWindow._updateMultipleStreams env1 w)._streams k = some s →
        StreamMap.find?
          (MainWindow._updateMultipleStreams env2
            (MainWindow._updateMultipleStreams env1 w))._streams k = some s) ∧
      (∃ new : List Call,
        (MainWindow._updateMultipleStreams env2
            (MainWindow._updateMultipleStreams env1 w)).calls =
          (MainWindow._updateMultipleStreams env1 w).calls ++ new ∧
        ∀ (k : QPersistentModelIndex) (created : Option Stream),
          StreamMap.find? (MainWindow._updateMultipleStreams env1 w)._streams k ≠ none →
          Call.makeStream k created ∉ new) ∧
      ((∀ k : QPersistentModelIndex, k ∈ w.selectedIndexes →
          StreamMap.find? (MainWindow._updateMultipleStreams env1 w)._streams k = none →
          ∀ id host pid, (env2.streamCtor k id host pid).isSome = true) →
        ∀ k : QPersistentModelIndex,
          StreamMap.find?
              (MainWindow._updateMultipleStreams env2
                (MainWindow._updateMultipleStreams env1 w))._streams k =
            StreamMap.find? (MainWindow._updateMultipleStreams env1 w)._streams k) := by
  have hsel := (updateMultiple_streams env1 w h1).2.1
  have keep : ∀ (k : QPersistentModelIndex) (s : Stream),
      StreamMap.find? (MainWindow._updateMultipleStreams env1 w)._streams k = some s →
      StreamMap.find?
        (MainWindow._updateMultipleStreams env2
          (MainWindow._updateMultipleStreams env1 w))._streams k = some s := by
    intro k s hk
    have hmem : k ∈ w.selectedIndexes := by
      by_contra hn
      rw [updateMultiple_find?_of_not_mem env1 w h1 k hn] at hk
      cases hk
    exact updateMultiple_find?_of_live env2 _ h2 k s (by rw [hsel]; exact hmem) hk
  refine ⟨hsel, keep, ?_, ?_⟩
  · obtain ⟨new, hc, hnew⟩ := updateMultiple_calls env2 (MainWindow._updateMultipleStreams env1 w) h2
    exact ⟨new, hc, fun k created hlive hmem => hlive (hnew k created hmem).2⟩
  · intro hretry k
    cases hk : StreamMap.find? (MainWindow._updateMultipleStreams env1 w)._streams k with
    | some s => exact keep k s hk
    | none =>
      by_cases hmem : k ∈ w.selectedIndexes
      · rw [(updateMultiple_streams env2 _ h2).1]
        exact loop_find?_of_failed env2 k (hretry k hmem hk) _ _ [] hk rfl
      · exact updateMultiple_find?_of_not_mem env2 _ h2 k (by rw [hsel]; exact hmem)

/-- C10 fails as stated: with A selected and no session, a first call during
which the host refuses the session leaves the map empty, and a second call on
the same selection during which the host accepts it leaves the map with key A. -/
theorem reconcile_twice_retry_succeeds :
    (MainWindow._updateMultipleStreams refuseAllEnv (startedWindow [windowA])).selectedIndexes =
        (startedWindow [windowA]).selectedIndexes ∧
      StreamMap.keys
        (MainWindow._updateMultipleStreams refuseAllEnv (startedWindow [windowA]))._streams = [] ∧
      StreamMap.keys
        (MainWindow._updateMultipleStreams exampleEnv
          (MainWindow._updateMultipleStreams refuseAllEnv (startedWindow [windowA])))._streams =
        [windowA] := by
  decide

/-- C10 at the selection A, B, C with the session of B refused in both calls: the
second call leaves the map of the first, with keys A and C. -/
theorem reconcile_twice_witness :
    StreamMap.keys
        (MainWindow._updateMultipleStreams refuseBEnv
          (MainWindow._updateMultipleStreams refuseBEnv
            (startedWindow [windowA, windowB, windowC])))._streams = [windowA, windowC] ∧
      ∀ k : QPersistentModelIndex,
        StreamMap.find?
            (MainWindow._updateMultipleStreams refuseBEnv
              (MainWindow._updateMultipleStreams refuseBEnv
                (startedWindow [windowA, windowB, windowC])))._streams k =
          StreamMap.find?
            (MainWindow._updateMultipleStreams refuseBEnv
              (startedWindow [windowA, windowB, windowC]))._streams k :=
  ⟨by decide,
    (reconcile_twice refuseBEnv refuseBEnv (startedWindow [windowA, windowB, windowC])
      rfl rfl).2.2.2 (by
        intro k hk hnone id host pid
        have hcases : k = windowA ∨ k = windowB ∨ k = windowC := by
          simpa [startedWindow, MainWindow.initial] using hk
        rcases hcases with e | e | e
        · subst e
          exact absurd hnone (by decide)
        · subst e
          rfl
        · subst e
          exact absurd hnone (by decide))⟩

/-! ### Per-session update -/

theorem shareDesktopLoop_ok (env : Env) (sub : ChromaSubsampling)
    (hsub : MainWindow._getSubsampling env = Except.ok sub) (m : StreamMap) :
    ∀ w : MainWindow, ∃ r : StreamMap × MainWindow,
      MainWindow.shareDesktopLoop env m w = Except.ok r ∧
      r.1 = m.filter (fun e =>
        (env.streamUpdate e.2 env.compression env.quality sub).isNone) ∧
      r.2.calls = w.calls ++ m.map (fun e => Call.update e.2) ∧
      (r.2.statusMessage = w.statusMessage ∨
        ∃ e ∈ m, env.streamUpdate e.2 env.compression env.quality sub =
          some r.2.statusMessage) ∧
      ((∃ e ∈ m, (env.streamUpdate e.2 env.compression env.quality sub).isSome = true) →
        ∃ e ∈ m, env.streamUpdate e.2 env.compression env.quality sub =
          some r.2.statusMessage) := by
  induction m with
  | nil =>
    intro w
    exact ⟨([], w), rfl, rfl, by simp, Or.inl rfl, by simp⟩
  | cons e rest ih =>
    intro w
    obtain ⟨k, s⟩ := e
    cases hu : env.streamUpdate s env.compression env.quality sub with
    | none =>
      obtain ⟨r, h1, h2, h3, h4, h5⟩ := ih { w with calls := w.calls ++ [Call.update s] }
      refine ⟨((k, s) :: r.1, r.2), ?_, ?_, ?_, ?_, ?_⟩
      · rw [MainWindow.shareDesktopLoop]
        simp only [hsub, hu, h1]
      · simp [List.filter_cons, hu, h2]
      · rw [h3]
        simp
      · rcases h4 with h4 | ⟨e, he, h4⟩
        · exact Or.inl h4
        · exact Or.inr ⟨e, List.mem_cons_of_mem _ he, h4⟩
      · rintro ⟨e, he, hf⟩
        rcases List.mem_cons.mp he with rfl | he
        · simp [hu] at hf
        · obtain ⟨e', he', h'⟩ := h5 ⟨e, he, hf⟩
          exact ⟨e', List.mem_cons_of_mem _ he', h'⟩
    | some msg =>
      obtain ⟨r, h1, h2, h3, h4, h5⟩ :=
        ih { w with calls := w.calls ++ [Call.update s], statusMessage := msg }
      have hlast : ∃ e ∈ (k, s) :: rest,
          env.streamUpdate e.2 env.compression env.quality sub = some r.2.statusMessage := by
        rcases h4 with h4 | ⟨e, he, h4⟩
        · exact ⟨(k, s), List.mem_cons_self _ _, by rw [h4]; exact hu⟩
        · exact ⟨e, List.mem_cons_of_mem _ he, h4⟩
      refine ⟨r, ?_, ?_, ?_, Or.inr hlast, fun _ => hlast⟩
      · rw [MainWindow.shareDesktopLoop]
        simp only [hsub, hu, h1]
      · simp [List.filter_cons, hu, h2]
      · rw [h3]
        simp

/-- C3, as the code has it: when the subsampling selector is one that
`_getSubsampling` accepts, `_shareDesktopUpdate` returns, it has called `update`
exactly once on every session in iteration order, the map afterwards is the old
one restricted to the sessions whose update succeeded, in the same order, and
if some update failed the status text is the message of a failed update. -/
theorem shareDesktopUpdate_isolation (env : Env) (w : MainWindow) (sub : ChromaSubsampling)
    (hsub : MainWindow._getSubsampling env = Except.ok sub) :
    ∃ w' : MainWindow, MainWindow._shareDesktopUpdate env w = Except.ok w' ∧
      w'.calls = w.calls ++ w._streams.map (fun e => Call.update e.2) ∧
      w'._streams = w._streams.filter (fun e =>
        (env.streamUpdate e.2 env.compression env.quality sub).isNone) ∧
      ((∃ e ∈ w._streams,
          (env.streamUpdate e.2 env.compression env.quality sub).isSome = true) →
        ∃ e ∈ w._streams, env.streamUpdate e.2 env.compression env.quality sub =
          some w'.statusMessage) := by
  obtain ⟨r, h1, h2, h3, _, h5⟩ := shareDesktopLoop_ok env sub hsub w._streams w
  refine ⟨{ r.2 with _streams := r.1 }, ?_, h3, h2, h5⟩
  unfold MainWindow._shareDesktopUpdate
  rw [h1]

/-- C3 fails as stated: with the subsampling selector at 3 and two live sessions,
`_shareDesktopUpdate` ends with the error of `_getSubsampling` and yields no
session map. -/
theorem shareDesktopUpdate_escapes :
    twoSessionWindow._streams.length = 2 ∧
      MainWindow._shareDesktopUpdate badSubsamplingEnv twoSessionWindow =
        Except.error "unsupported subsampling mode" := by
  exact ⟨rfl, rfl⟩

/-- C3 at three sessions A, B, C of which B fails to update: A and C stay, in
this order. -/
theorem shareDesktopUpdate_isolation_witness :
    threeSessionWindow._streams.filter (fun e =>
        (failBUpdateEnv.streamUpdate e.2 failBUpdateEnv.compression failBUpdateEnv.quality
          ChromaSubsampling.YUV444).isNone) =
        [(windowA, sampleStream 0 windowA "1 app - desk"),
          (windowC, sampleStream 2 windowC "3 app - desk")] ∧
      ∃ w' : MainWindow,
        MainWindow._shareDesktopUpdate failBUpdateEnv threeSessionWindow = Except.ok w' ∧
        w'.calls = threeSessionWindow.calls ++
          threeSessionWindow._streams.map (fun e => Call.update e.2) ∧
        w'._streams = threeSessionWindow._streams.filter (fun e =>
          (failBUpdateEnv.streamUpdate e.2 failBUpdateEnv.compression failBUpdateEnv.quality
            ChromaSubsampling.YUV444).isNone) ∧
        ((∃ e ∈ threeSessionWindow._streams,
            (failBUpdateEnv.streamUpdate e.2 failBUpdateEnv.compression failBUpdateEnv.quality
              ChromaSubsampling.YUV444).isSome = true) →
          ∃ e ∈ threeSessionWindow._streams,
            failBUpdateEnv.streamUpdate e.2 failBUpdateEnv.compression failBUpdateEnv.quality
              ChromaSubsampling.YUV444 = some w'.statusMessage) :=
  ⟨by decide,
    shareDesktopUpdate_isolation failBUpdateEnv threeSessionWindow ChromaSubsampling.YUV444 rfl⟩

/-! ### Event pump -/

theorem processEventsLoop_eq (env : Env) (interact : Bool) (m : StreamMap) :
    (MainWindow.processEventsLoop env interact m).1 =
        m.filter (fun e => env.streamProcessEvents e.2 interact) ∧
      (MainWindow.processEventsLoop env interact m).2.1 =
        (m.filter fun e => !env.streamProcessEvents e.2 interact).map Prod.snd ∧
      (MainWindow.processEventsLoop env interact m).2.2 =
        m.map (fun e => Call.processEvents e.2) := by
  induction m with
  | nil => exact ⟨rfl, rfl, rfl⟩
  | cons e rest ih =>
    obtain ⟨k, s⟩ := e
    obtain ⟨h1, h2, h3⟩ := ih
    unfold MainWindow.processEventsLoop
    by_cases hp : env.streamProcessEvents s interact = true
    · simp [hp, h1, h2, h3, List.filter_cons]
    · simp [hp, h1, h2, h3, List.filter_cons]

theorem deselect_foldl_multi (env : Env) (hm : env.multiWindowMode = true)
    (closed : List Stream) :
    ∀ w : MainWindow,
      (closed.foldl (MainWindow._deselect env) w)._streams = w._streams ∧
      (closed.foldl (MainWindow._deselect env) w)._streamID = w._streamID ∧
      (closed.foldl (MainWindow._deselect env) w).streamButtonChecked =
        w.streamButtonChecked ∧
      (closed.foldl (MainWindow._deselect env) w).calls =
        w.calls ++ (closed.filter fun s => s.index.isValid).map
          (fun s => Call.deselect s.index) ∧
      (closed.foldl (MainWindow._deselect env) w).selectedIndexes =
        w.selectedIndexes.filter fun i =>
          !(closed.any fun s => s.index.isValid && decide (s.index = i)) := by
  induction closed with
  | nil => intro w; simp
  | cons s rest ih =>
    intro w
    rw [List.foldl_cons]
    obtain ⟨h1, h2, h3, h4, h5⟩ := ih (MainWindow._deselect env w s)
    rw [h1, h2, h3, h4, h5]
    unfold MainWindow._deselect
    by_cases hv : s.index.isValid = true
    · simp only [hm, hv, if_true, List.filter_cons, List.map_cons, List.any_cons,
        Bool.true_and, List.filter_filter, List.append_assoc, List.singleton_append]
      refine ⟨trivial, trivial, trivial, trivial, ?_⟩
      congr 1
      funext i
      by_cases hi : s.index = i
      · simp [hi]
      · have hi' : ¬ i = s.index := fun e => hi e.symm
        simp [hi, hi']
    · simp [hm, hv, List.filter_cons]

theorem deselect_foldl_single (env : Env) (hm : env.multiWindowMode = false)
    (closed : List Stream) :
    ∀ w : MainWindow,
      (closed.foldl (MainWindow._deselect env) w)._streams = w._streams ∧
      (closed.foldl (MainWindow._deselect env) w)._streamID = w._streamID ∧
      (closed.foldl (MainWindow._deselect env) w).selectedIndexes = w.selectedIndexes ∧
      (closed.foldl (MainWindow._deselect env) w).calls =
        w.calls ++ closed.map (fun _ => Call.setChecked false) ∧
      (closed.foldl (MainWindow._deselect env) w).streamButtonChecked =
        (w.streamButtonChecked && closed.isEmpty) := by
  induction closed with
  | nil => intro w; simp
  | cons s rest ih =>
    intro w
    rw [List.foldl_cons]
    obtain ⟨h1, h2, h3, h4, h5⟩ := ih (MainWindow._deselect env w s)
    rw [h1, h2, h3, h4, h5]
    unfold MainWindow._deselect
    simp [hm]

/-- C12: `_processStreamEvents` calls `processEvents` exactly once on every
session in iteration order and keeps exactly the sessions that did not report
their remote side closed; after that it makes one deselecting call per closed
session, in order, and no other: in multi-window mode `select(index, Deselect)` for
the index of the session, provided this index is valid (a closed session whose
index is invalid is only removed), in single-window mode `setChecked(false)` on
the stream button. -/
theorem processStreamEvents_pump (env : Env) (w : MainWindow) :
    (MainWindow._processStreamEvents env w)._streams =
        w._streams.filter (fun e => env.streamProcessEvents e.2 env.remoteControl) ∧
      (env.multiWindowMode = true →
        (MainWindow._processStreamEvents env w).calls =
            w.calls ++ w._streams.map (fun e => Call.processEvents e.2) ++
              ((MainWindow.closedStreams env w).filter fun s => s.index.isValid).map
                (fun s => Call.deselect s.index) ∧
          (MainWindow._processStreamEvents env w).selectedIndexes =
            w.selectedIndexes.filter (fun i =>
              !((MainWindow.closedStreams env w).any fun s =>
                s.index.isValid && decide (s.index = i))) ∧
          (MainWindow._processStreamEvents env w).streamButtonChecked =
            w.streamButtonChecked) ∧
      (env.multiWindowMode = false →
        (MainWindow._processStreamEvents env w).calls =
            w.calls ++ w._streams.map (fun e => Call.processEvents e.2) ++
              (MainWindow.closedStreams env w).map (fun _ => Call.setChecked false) ∧
          (MainWindow._processStreamEvents env w).selectedIndexes = w.selectedIndexes ∧
          (MainWindow._processStreamEvents env w).streamButtonChecked =
            (w.streamButtonChecked && (MainWindow.closedStreams env w).isEmpty)) := by
  obtain ⟨h1, h2, h3⟩ := processEventsLoop_eq env env.remoteControl w._streams
  have hrun : MainWindow._processStreamEvents env w =
      (MainWindow.closedStreams env w).foldl (MainWindow._deselect env)
        { w with
          _streams := w._streams.filter (fun e => env.streamProcessEvents e.2 env.remoteControl)
          calls := w.calls ++ w._streams.map (fun e => Call.processEvents e.2) } := by
    unfold MainWindow._processStreamEvents MainWindow.closedStreams
    simp only [h1, h2, h3]
  rw [hrun]
  refine ⟨?_, ?_, ?_⟩
  · by_cases hm : env.multiWindowMode = true
    · exact (deselect_foldl_multi env hm _ _).1
    · exact (deselect_foldl_single env (by simpa using hm) _ _).1
  · intro hm
    obtain ⟨_, _, hb, hc, hs⟩ := deselect_foldl_multi env hm (MainWindow.closedStreams env w)
      { w with
        _streams := w._streams.filter (fun e => env.streamProcessEvents e.2 env.remoteControl)
        calls := w.calls ++ w._streams.map (fun e => Call.processEvents e.2) }
    exact ⟨hc, hs, hb⟩
  · intro hm
    obtain ⟨_, _, hs, hc, hb⟩ := deselect_foldl_single env hm (MainWindow.closedStreams env w)
      { w with
        _streams := w._streams.filter (fun e => env.streamProcessEvents e.2 env.remoteControl)
        calls := w.calls ++ w._streams.map (fun e => Call.processEvents e.2) }
    exact ⟨hc, hs, hb⟩

/-- C12 in multi-window mode at three sessions A, B, C of which B reports its
remote side closed: every session is polled once, A and C stay, and B alone is
deselected, once. -/
theorem processStreamEvents_pump_witness :
    StreamMap.keys (MainWindow._processStreamEvents closeBEnv selectedThreeWindow)._streams =
        [windowA, windowC] ∧
      (MainWindow._processStreamEvents closeBEnv selectedThreeWindow).selectedIndexes =
        [windowA, windowC] ∧
      (MainWindow._processStreamEvents closeBEnv selectedThreeWindow).calls =
        [Call.processEvents (sampleStream 0 windowA "1 app - desk"),
          Call.processEvents (sampleStream 1 windowB "2 app - desk"),
          Call.processEvents (sampleStream 2 windowC "3 app - desk"),
          Call.deselect windowB] ∧
      (MainWindow._processStreamEvents closeBEnv selectedThreeWindow)._streams =
        selectedThreeWindow._streams.filter
          (fun e => closeBEnv.streamProcessEvents e.2 closeBEnv.remoteControl) :=
  ⟨by decide, by decide, by decide,
    (processStreamEvents_pump closeBEnv selectedThreeWindow).1⟩

/-! ### Identity counter -/

/-- The loop advances the counter once per remaining index that is not live, and
records one construction attempt for each. -/
theorem loop_counter (env : Env) (rest : List QPersistentModelIndex) :
    ∀ (w : MainWindow) (streams : StreamMap), w._streamID < UINT_MOD →
      ∃ new : List Call,
        (MainWindow.updateMultipleLoop env rest w streams).1.calls = w.calls ++ new ∧
        (∀ c ∈ new, Call.isAttempt c = true) ∧
        new.length = (rest.filter fun k => (StreamMap.find? w._streams k).isNone).length ∧
        (MainWindow.updateMultipleLoop env rest w streams).1._streamID =
          (w._streamID + new.length) % UINT_MOD ∧
        ((∀ i id host pid, env.streamCtor i id host pid = none) →
          ∀ c ∈ new, Call.isCreation c = true) := by
  induction rest with
  | nil =>
    intro w streams hid
    refine ⟨[], by simp [loop_nil], by simp, by simp, ?_, by simp⟩
    rw [loop_nil]
    simp only [List.length_nil, Nat.add_zero]
    exact (Nat.mod_eq_of_lt hid).symm
  | cons index rest ih =>
    intro w streams hid
    have hlt : (w._streamID + 1) % UINT_MOD < UINT_MOD := Nat.mod_lt _ (by decide)
    cases hf : StreamMap.find? w._streams index with
    | some s =>
      rw [loop_cons_live env w streams index rest s hf]
      obtain ⟨new, h1, h2, h3, h4, h5⟩ := ih w (StreamMap.assign streams index s) hid
      exact ⟨new, h1, h2, by simp [List.filter_cons, hf, h3], h4, h5⟩
    | none =>
      cases hc : MainWindow.attemptOutcome env w index with
      | none =>
        rw [loop_cons_created env w streams index rest hf hc]
        obtain ⟨new, h1, h2, h3, h4, h5⟩ := ih
          { w with
            _streamID := (w._streamID + 1) % UINT_MOD
            allocated := w.allocated + 1
            calls := w.calls ++
              [Call.makeStream index (some (MainWindow.attemptStream env w index))] }
          (StreamMap.emplace streams index (MainWindow.attemptStream env w index)) hlt
        refine ⟨Call.makeStream index (some (MainWindow.attemptStream env w index)) :: new,
          by rw [h1]; simp, ?_, ?_, ?_, ?_⟩
        · intro c hc'
          rcases List.mem_cons.mp hc' with e | hc'
          · rw [e]; rfl
          · exact h2 c hc'
        · simp only at h3
          simp [List.filter_cons, hf, h3]
        · rw [h4]
          simp only [List.length_cons, UINT_MOD]
          omega
        · intro hall c hc'
          rcases List.mem_cons.mp hc' with e | hc'
          · rw [e]; rfl
          · exact h5 hall c hc'
      | some msg =>
        rw [loop_cons_failed env w streams index rest msg hf hc]
        obtain ⟨new, h1, h2, h3, h4, h5⟩ := ih
          { w with
            _streamID := (w._streamID + 1) % UINT_MOD
            allocated := w.allocated + 1
            calls := w.calls ++ [Call.makeStream index none]
            statusMessage := msg }
          streams hlt
        refine ⟨Call.makeStream index none :: new, by rw [h1]; simp, ?_, ?_, ?_, ?_⟩
        · intro c hc'
          rcases List.mem_cons.mp hc' with e | hc'
          · rw [e]; rfl
          · exact h2 c hc'
        · simp only at h3
          simp [List.filter_cons, hf, h3]
        · rw [h4]
          simp only [List.length_cons, UINT_MOD]
          omega
        · intro hall
          have := hall index (MainWindow.attemptStream env w index).id
            (MainWindow.attemptStream env w index).host (MainWindow.attemptStream env w index).pid
          simp only [MainWindow.attemptOutcome] at hc
          rw [hc] at this
          cases this

theorem updateMultiple_streamID (env : Env) (w : MainWindow)
    (hflag : env.DEFLECT_USE_QT5MACEXTRAS = true) :
    (MainWindow._updateMultipleStreams env w)._streamID =
      (MainWindow.updateMultipleLoop env w.selectedIndexes w []).1._streamID := by
  unfold MainWindow._updateMultipleStreams
  simp only [hflag, if_true]
  split <;> rfl

theorem updateSingle_streamID (env : Env) (w : MainWindow)
    (hon : w.streamButtonChecked = true) :
    (MainWindow._updateSingleStream env w)._streamID = w._streamID := by
  unfold MainWindow._updateSingleStream
  simp only [hon, Bool.not_true, Bool.false_eq_true, if_false]
  split
  · rfl
  · unfold MainWindow._makeStream
    cases env.streamCtor { row := none } (MainWindow._getStreamId env)
      (MainWindow._getStreamHost env) 0 <;> rfl

theorem processStreamEvents_streamID (env : Env) (w : MainWindow) :
    (MainWindow._processStreamEvents env w)._streamID = w._streamID := by
  unfold MainWindow._processStreamEvents
  by_cases hm : env.multiWindowMode = true
  · rw [(deselect_foldl_multi env hm _ _).2.1]
  · rw [(deselect_foldl_single env (by simpa using hm) _ _).2.1]

theorem shareDesktopLoop_streamID (env : Env) (m : StreamMap) :
    ∀ (w : MainWindow) (r : StreamMap × MainWindow),
      MainWindow.shareDesktopLoop env m w = Except.ok r → r.2._streamID = w._streamID := by
  induction m with
  | nil =>
    intro w r h
    simp only [MainWindow.shareDesktopLoop, Except.ok.injEq] at h
    rw [← h]
  | cons e rest ih =>
    intro w r h
    obtain ⟨k, s⟩ := e
    rw [MainWindow.shareDesktopLoop] at h
    cases hs : MainWindow._getSubsampling env with
    | error e => simp [hs] at h
    | ok sub =>
      simp only [hs] at h
      cases hu : env.streamUpdate s env.compression env.quality sub with
      | none =>
        simp only [hu] at h
        cases hl : MainWindow.shareDesktopLoop env rest
            { w with calls := w.calls ++ [Call.update s] } with
        | error e => simp [hl] at h
        | ok r' =>
          simp only [hl, Except.ok.injEq] at h
          rw [← h]
          have h2 := ih _ r' hl
          exact h2
      | some msg =>
        simp only [hu] at h
        have h2 := ih _ r h
        exact h2

theorem update_streamID (env : Env) (w w' : MainWindow) (hon : w.streamButtonChecked = true)
    (h : MainWindow._update env w = Except.ok w') :
    w'._streamID = (MainWindow._updateStreams env w)._streamID := by
  unfold MainWindow._update at h
  simp only [hon, if_true] at h
  unfold MainWindow._shareDesktopUpdate at h
  cases hl : MainWindow.shareDesktopLoop env
      (MainWindow._processStreamEvents env (MainWindow._updateStreams env w))._streams
      (MainWindow._processStreamEvents env (MainWindow._updateStreams env w)) with
  | error e => simp [hl] at h
  | ok r =>
    simp only [hl, Except.ok.injEq] at h
    rw [← h]
    have h1 := shareDesktopLoop_streamID env _ _ r hl
    rw [processStreamEvents_streamID] at h1
    rw [← h1]
    unfold MainWindow._regulateFrameRate
    simp only
    split <;> rfl

theorem filter_isAttempt_of_all (new : List Call) (h : ∀ c ∈ new, Call.isAttempt c = true) :
    new.filter Call.isAttempt = new :=
  List.filter_eq_self.mpr h

theorem filter_isCreation_le (new : List Call) :
    (new.filter Call.isCreation).length ≤ (new.filter Call.isAttempt).length := by
  induction new with
  | nil => simp
  | cons c rest ih =>
    cases c with
    | makeStream i created =>
      cases created with
      | none => simp [List.filter_cons, Call.isCreation, Call.isAttempt]; omega
      | some s => simp [List.filter_cons, Call.isCreation, Call.isAttempt]; omega
    | processEvents s => simpa [List.filter_cons, Call.isCreation, Call.isAttempt] using ih
    | update s => simpa [List.filter_cons, Call.isCreation, Call.isAttempt] using ih
    | deselect i => simpa [List.filter_cons, Call.isCreation, Call.isAttempt] using ih
    | setChecked b => simpa [List.filter_cons, Call.isCreation, Call.isAttempt] using ih

/-- C11, as the code has it: in a build with `DEFLECT_USE_QT5MACEXTRAS`, one
`_updateMultipleStreams` advances the 32-bit counter, modulo `2 ^ 32`, by the
number of constructions it attempts, one per selected index that is not live,
of which the sessions created are at most as many and exactly as many when no
construction fails; the counter does not decrease unless it wraps;
`_updateSingleStream` with the button pressed leaves it unchanged, and so does
the rest of a tick after `_updateStreams`. -/
theorem identity_counter (env : Env) (w : MainWindow)
    (hflag : env.DEFLECT_USE_QT5MACEXTRAS = true) (hid : w._streamID < UINT_MOD) :
    (∃ new : List Call,
        (MainWindow._updateMultipleStreams env w).calls = w.calls ++ new ∧
        (MainWindow._updateMultipleStreams env w)._streamID =
          (w._streamID + (new.filter Call.isAttempt).length) % UINT_MOD ∧
        (new.filter Call.isAttempt).length =
          (w.selectedIndexes.filter fun k => (StreamMap.find? w._streams k).isNone).length ∧
        (new.filter Call.isCreation).length ≤ (new.filter Call.isAttempt).length ∧
        ((∀ i id host pid, env.streamCtor i id host pid = none) →
          (new.filter Call.isCreation).length = (new.filter Call.isAttempt).length) ∧
        (w._streamID + (new.filter Call.isAttempt).length < UINT_MOD →
          w._streamID ≤ (MainWindow._updateMultipleStreams env w)._streamID)) ∧
      (w.streamButtonChecked = true →
        (MainWindow._updateSingleStream env w)._streamID = w._streamID) ∧
      (∀ w' : MainWindow, w.streamButtonChecked = true →
        MainWindow._update env w = Except.ok w' →
        w'._streamID = (MainWindow._updateStreams env w)._streamID) := by
  refine ⟨?_, updateSingle_streamID env w, fun w' => update_streamID env w w'⟩
  obtain ⟨new, h1, h2, h3, h4, h5⟩ := loop_counter env w.selectedIndexes w [] hid
  have hsid := updateMultiple_streamID env w hflag
  have key : ∀ extra : List Call, (∀ c ∈ extra, c = Call.setChecked true) →
      (MainWindow._updateMultipleStreams env w).calls = w.calls ++ (new ++ extra) →
      ∃ new' : List Call,
        (MainWindow._updateMultipleStreams env w).calls = w.calls ++ new' ∧
        (MainWindow._updateMultipleStreams env w)._streamID =
          (w._streamID + (new'.filter Call.isAttempt).length) % UINT_MOD ∧
        (new'.filter Call.isAttempt).length =
          (w.selectedIndexes.filter fun k => (StreamMap.find? w._streams k).isNone).length ∧
        (new'.filter Call.isCreation).length ≤ (new'.filter Call.isAttempt).length ∧
        ((∀ i id host pid, env.streamCtor i id host pid = none) →
          (new'.filter Call.isCreation).length = (new'.filter Call.isAttempt).length) ∧
        (w._streamID + (new'.filter Call.isAttempt).length < UINT_MOD →
          w._streamID ≤ (MainWindow._updateMultipleStreams env w)._streamID) := by
    intro extra hextra hcalls
    have hA : ((new ++ extra).filter Call.isAttempt) = new := by
      rw [List.filter_append, filter_isAttempt_of_all new h2]
      have : extra.filter Call.isAttempt = [] := by
        rw [List.filter_eq_nil_iff]
        intro c hc
        rw [hextra c hc]
        simp [Call.isAttempt]
      rw [this, List.append_nil]
    have hC : ∀ l : List Call, (∀ c ∈ l, Call.isCreation c = true) →
        ((l ++ extra).filter Call.isCreation) = l := by
      intro l hl
      rw [List.filter_append, List.filter_eq_self.mpr hl]
      have : extra.filter Call.isCreation = [] := by
        rw [List.filter_eq_nil_iff]
        intro c hc
        rw [hextra c hc]
        simp [Call.isCreation]
      rw [this, List.append_nil]
    refine ⟨new ++ extra, hcalls, ?_, ?_, filter_isCreation_le _, ?_, ?_⟩
    · rw [hA, hsid, h4]
    · rw [hA, h3]
    · intro hall
      rw [hA, hC new (h5 hall)]
    · intro hlt
      rw [hA] at hlt
      rw [hsid, h4, Nat.mod_eq_of_lt hlt]
      omega
  rcases (updateMultiple_streams env w hflag).2.2.2.2 with hc | hc
  · exact key [] (by simp) (by rw [hc, h1, List.append_nil])
  · exact key [Call.setChecked true] (by simp) (by rw [hc, h1, List.append_assoc])

/-- C11 at the selection A, B, C with the session of B refused: three attempts
bring the counter from 0 to 3 while two sessions are created, and
`_updateSingleStream` on the pressed window leaves the counter alone. -/
theorem identity_counter_witness :
    (startedWindow [windowA, windowB, windowC])._streamID = 0 ∧
      (MainWindow._updateMultipleStreams refuseBEnv
        (startedWindow [windowA, windowB, windowC]))._streamID = 3 ∧
      ((MainWindow._updateMultipleStreams refuseBEnv
          (startedWindow [windowA, windowB, windowC])).calls.filter Call.isCreation).length =
        2 ∧
      (MainWindow._updateSingleStream refuseBEnv
          (startedWindow [windowA, windowB, windowC]))._streamID =
        (startedWindow [windowA, windowB, windowC])._streamID :=
  ⟨rfl, by decide, by decide,
    (identity_counter refuseBEnv (startedWindow [windowA, windowB, windowC]) rfl
      (by decide)).2.1 rfl⟩

/-- C11 fails as stated: with A selected, no session and a host that refuses the
session, one `_updateMultipleStreams` brings the counter from 0 to 1 although its
only construction threw and the map stays empty; and from the largest counter
value one successful creation brings the counter to 0. -/
theorem identity_counter_failed_creation :
    (startedWindow [windowA])._streamID = 0 ∧
      (MainWindow._updateMultipleStreams refuseAllEnv (startedWindow [windowA]))._streamID = 1 ∧
      (MainWindow._updateMultipleStreams refuseAllEnv (startedWindow [windowA])).calls =
        [Call.makeStream windowA none] ∧
      (MainWindow._updateMultipleStreams refuseAllEnv (startedWindow [windowA]))._streams = [] ∧
      lastIdWindow._streamID = 4294967295 ∧
      StreamMap.keys (MainWindow._updateMultipleStreams exampleEnv lastIdWindow)._streams =
        [windowA] ∧
      (MainWindow._updateMultipleStreams exampleEnv lastIdWindow)._streamID = 0 := by
  decide

/-! ### Subsampling selector -/

/-- C13: `_getSubsampling` maps the selector values 0, 1, 2 to YUV444, YUV422,
YUV420, it ends with an error exactly when the selector is none of 0, 1, 2, and
an error comes with no subsampling value. -/
theorem getSubsampling_selector (env : Env) :
    (env.subsamplingIndex = 0 →
        MainWindow._getSubsampling env = Except.ok ChromaSubsampling.YUV444) ∧
      (env.subsamplingIndex = 1 →
        MainWindow._getSubsampling env = Except.ok ChromaSubsampling.YUV422) ∧
      (env.subsamplingIndex = 2 →
        MainWindow._getSubsampling env = Except.ok ChromaSubsampling.YUV420) ∧
      ((∃ e : String, MainWindow._getSubsampling env = Except.error e) ↔
        ¬ (env.subsamplingIndex = 0 ∨ env.subsamplingIndex = 1 ∨ env.subsamplingIndex = 2)) ∧
      (∀ e : String, MainWindow._getSubsampling env = Except.error e →
        ∀ s : ChromaSubsampling, MainWindow._getSubsampling env ≠ Except.ok s) := by
  refine ⟨?_, ?_, ?_, ?_, ?_⟩
  · intro h
    simp [MainWindow._getSubsampling, h]
  · intro h
    simp [MainWindow._getSubsampling, h]
  · intro h
    simp [MainWindow._getSubsampling, h]
  · unfold MainWindow._getSubsampling
    by_cases h0 : env.subsamplingIndex = 0
    · simp [h0]
    · by_cases h1 : env.subsamplingIndex = 1
      · simp [h1]
      · by_cases h2 : env.subsamplingIndex = 2
        · simp [h2]
        · simp [h0, h1, h2]
  · intro e he s hs
    rw [he] at hs
    cases hs

end Deflect
